import Mathlib

set_option maxHeartbeats 1000000

/- Formal model of system/gd/rust/linux/service/src/iface_bluetooth_gatt.rs,
   the D-Bus projection layer of the Floss BLE GATT / scanning / advertising
   service.  Wire data (D-Bus variant values) is modelled by WireValue and
   fallible conversions by DbusRes, whose panicked outcome models a Rust
   panic (for example an unwrap of a failed try_into). -/

/-- Errors produced while converting wire (D-Bus) data into domain values.
The constructor MarshalError.field tags an error with the name of the record
field it arose from, as the propmap bindings do. -/
inductive MarshalError where
  | lengthMismatch : MarshalError
  | invalidEnumValue : Nat → MarshalError
  | typeMismatch : String → MarshalError
  | missingKey : String → MarshalError
  | field : String → MarshalError → MarshalError
deriving DecidableEq

/-- Outcome of a fallible conversion in the Rust code: an Ok value, an Err
carrying a marshalling error, or a panic (an unwrap on a failed conversion).
A panic unwinds: it is not an Err value and carries no error payload. -/
inductive DbusRes (α : Type) where
  | ok : α → DbusRes α
  | err : MarshalError → DbusRes α
  | panicked : DbusRes α
deriving DecidableEq

/-- Sequencing of fallible conversions: the question-mark operator of the
generated Rust bindings.  Errors and panics propagate unchanged. -/
def DbusRes.bind {α β : Type} : DbusRes α → (α → DbusRes β) → DbusRes β
  | .ok a, k => k a
  | .err e, _ => .err e
  | .panicked, _ => .panicked

/-- Tag a conversion error with the name of the record field being converted
(Modelled from the spec: the dbus_propmap macro body is outside src/; per
paragraph 4.2 a field conversion failure is surfaced tagged with the field
name).  Ok values and panics pass through unchanged. -/
def tagF {α : Type} (name : String) : DbusRes α → DbusRes α
  | .ok a => .ok a
  | .err e => .err (.field name e)
  | .panicked => .panicked

/-- A D-Bus variant value as used by this projection layer: fixed-width
integers, booleans, strings, byte sequences, arrays, the two dictionary
shapes used by AdvertiseData, and string-keyed property maps for records. -/
inductive WireValue where
  | i32v : Int → WireValue
  | u32v : Nat → WireValue
  | u16v : Nat → WireValue
  | u8v : Nat → WireValue
  | i8v : Int → WireValue
  | boolv : Bool → WireValue
  | strv : String → WireValue
  | bytes : List Nat → WireValue
  | arr : List WireValue → WireValue
  | dictI : List (Int × List Nat) → WireValue
  | dictS : List (String × List Nat) → WireValue
  | propMap : List (String × WireValue) → WireValue

/-- Key lookup in a property map (the D-Bus PropMap is a string-keyed map;
modelled as an association list). -/
def lookupKey : List (String × WireValue) → String → Option WireValue
  | [], _ => none
  | (k, v) :: rest, key => if k = key then some v else lookupKey rest key

/-- A looked-up value is structurally smaller than the property map holding
it; used for termination of the recursive GattService conversion. -/
theorem lookupKey_sizeOf {m : List (String × WireValue)} {k : String} {v : WireValue}
    (h : lookupKey m k = some v) : sizeOf v < sizeOf m := by
  induction m with
  | nil => simp [lookupKey] at h
  | cons hd tl ih =>
    obtain ⟨k', v'⟩ := hd
    by_cases hk : k' = k
    · simp [lookupKey, hk] at h
      subst h
      simp
      omega
    · simp [lookupKey, hk] at h
      have := ih h
      simp
      omega

/-- The domain type bt_topshim::btif::Uuid128Bit, that is the Rust array
type of 16 bytes, modelled as a list of bytes whose length is exactly 16. -/
def Uuid128Bit : Type := { l : List Nat // l.length = 16 }

instance : DecidableEq Uuid128Bit := fun a b =>
  decidable_of_iff (a.val = b.val) Subtype.ext_iff.symm

/-- impl DBusArg for Uuid128Bit, from_dbus: the body is
return Ok(data.try_into().unwrap()).  Converting Vec of u8 into the array
type of 16 bytes via try_into succeeds exactly when the length is 16; on
any other length try_into yields Err and the unwrap panics. -/
def Uuid128Bit.from_dbus (data : List Nat) : DbusRes Uuid128Bit :=
  if h : data.length = 16 then .ok ⟨data, h⟩ else .panicked

/-- impl DBusArg for Uuid128Bit, to_dbus: return Ok(data.to_vec()). -/
def Uuid128Bit.to_dbus (data : Uuid128Bit) : DbusRes (List Nat) :=
  .ok data.val

/- Enum types projected onto the wire by impl_dbus_arg_enum.  The enum
definitions live in bt_topshim / btstack, outside src/; their variant lists
are modelled from the spec (paragraphs 3, 4.4 and 7).  The macro body also
lives outside src/: per the spec (paragraph 4.1) the wire form is an
unsigned 32-bit integer, from_wire recovers the variant with that
discriminant and fails with MarshalError.invalidEnumValue on any other
integer, and to_wire always succeeds. -/

/-- Modelled from the spec: the provider status-code enum
bt_topshim::profiles::gatt::GattStatus.  The spec fixes no variant list, so
a representative enumeration with distinct discriminants is used. -/
inductive GattStatus where
  | success : GattStatus
  | error : GattStatus
  | busy : GattStatus
deriving DecidableEq, Fintype

/-- Modelled from the spec: the synchronous local admission-control result
of write_characteristic, with exactly the five values named in paragraph
4.4 of the spec. -/
inductive GattWriteRequestStatus where
  | writeSuccess : GattWriteRequestStatus
  | requestFail : GattWriteRequestStatus
  | busyFail : GattWriteRequestStatus
  | invalidLengthFail : GattWriteRequestStatus
  | permissionFail : GattWriteRequestStatus
deriving DecidableEq, Fintype

/-- Modelled from the spec: the GATT write-type enum; paragraph 3 lists the
values Default, NoResponse and Signed as supported by the provider. -/
inductive GattWriteType where
  | default : GattWriteType
  | noResponse : GattWriteType
  | signed : GattWriteType
deriving DecidableEq, Fintype

/-- Modelled from the spec: the LE PHY selection enum used by the PHY
update, read and preference operations; the spec fixes no variant list, so
the three standard LE PHYs are used. -/
inductive LePhy where
  | phy1m : LePhy
  | phy2m : LePhy
  | phyCoded : LePhy
deriving DecidableEq, Fintype

/-- Modelled from the spec: the scan-type enum of ScanSettings, with the
values Active and Passive (paragraph 3). -/
inductive ScanType where
  | active : ScanType
  | passive : ScanType
deriving DecidableEq, Fintype

/-- A wire codec for a fieldless enum: its variant list (in declaration
order) and the discriminant of each variant, as used by the FromPrimitive
and ToPrimitive derivations behind impl_dbus_arg_enum. -/
structure EnumCodec (α : Type) where
  variants : List α
  code : α → Nat

def gattStatusCodec : EnumCodec GattStatus where
  variants := [.success, .error, .busy]
  code := fun v => match v with
    | .success => 0
    | .error => 1
    | .busy => 2

def gattWriteRequestStatusCodec : EnumCodec GattWriteRequestStatus where
  variants := [.writeSuccess, .requestFail, .busyFail, .invalidLengthFail, .permissionFail]
  code := fun v => match v with
    | .writeSuccess => 0
    | .requestFail => 1
    | .busyFail => 2
    | .invalidLengthFail => 3
    | .permissionFail => 4

def gattWriteTypeCodec : EnumCodec GattWriteType where
  variants := [.default, .noResponse, .signed]
  code := fun v => match v with
    | .default => 0
    | .noResponse => 1
    | .signed => 2

def lePhyCodec : EnumCodec LePhy where
  variants := [.phy1m, .phy2m, .phyCoded]
  code := fun v => match v with
    | .phy1m => 1
    | .phy2m => 2
    | .phyCoded => 3

def scanTypeCodec : EnumCodec ScanType where
  variants := [.active, .passive]
  code := fun v => match v with
    | .active => 0
    | .passive => 1

/-- Modelled from the spec: from_wire of impl_dbus_arg_enum (macro body
outside src/).  It recovers the variant whose discriminant equals the wire
integer via FromPrimitive, and fails with MarshalError.invalidEnumValue
when no variant has that discriminant. -/
def enum_from_dbus {α : Type} (c : EnumCodec α) (n : Nat) : DbusRes α :=
  match c.variants.find? (fun v => c.code v == n) with
  | some v => .ok v
  | none => .err (.invalidEnumValue n)

/-- Modelled from the spec: to_wire of impl_dbus_arg_enum; it emits the
variant discriminant via ToPrimitive and always succeeds on the fieldless
enums of this interface. -/
def enum_to_dbus {α : Type} (c : EnumCodec α) (v : α) : DbusRes Nat :=
  .ok (c.code v)

/- Field-level converters from a wire variant value into the field types
used by the record bindings of this file. -/

def WireValue.asI32 : WireValue → DbusRes Int
  | .i32v n => .ok n
  | _ => .err (.typeMismatch "i32")

def WireValue.asU32 : WireValue → DbusRes Nat
  | .u32v n => .ok n
  | _ => .err (.typeMismatch "u32")

def WireValue.asU16 : WireValue → DbusRes Nat
  | .u16v n => .ok n
  | _ => .err (.typeMismatch "u16")

def WireValue.asU8 : WireValue → DbusRes Nat
  | .u8v n => .ok n
  | _ => .err (.typeMismatch "u8")

def WireValue.asI8 : WireValue → DbusRes Int
  | .i8v n => .ok n
  | _ => .err (.typeMismatch "i8")

def WireValue.asBool : WireValue → DbusRes Bool
  | .boolv b => .ok b
  | _ => .err (.typeMismatch "bool")

def WireValue.asStr : WireValue → DbusRes String
  | .strv s => .ok s
  | _ => .err (.typeMismatch "string")

def WireValue.asBytes : WireValue → DbusRes (List Nat)
  | .bytes l => .ok l
  | _ => .err (.typeMismatch "bytes")

def WireValue.asUuid : WireValue → DbusRes Uuid128Bit
  | .bytes l => Uuid128Bit.from_dbus l
  | _ => .err (.typeMismatch "bytes")

def WireValue.asEnum {α : Type} (c : EnumCodec α) : WireValue → DbusRes α
  | .u32v n => enum_from_dbus c n
  | _ => .err (.typeMismatch "u32")

def WireValue.asDictI : WireValue → DbusRes (List (Int × List Nat))
  | .dictI l => .ok l
  | _ => .err (.typeMismatch "dict")

def WireValue.asDictS : WireValue → DbusRes (List (String × List Nat))
  | .dictS l => .ok l
  | _ => .err (.typeMismatch "dict")

/-- Elementwise conversion of a wire array; the first element failure or
panic aborts the whole array conversion, as the generated Vec binding does. -/
def mapConv {α : Type} (c : WireValue → DbusRes α) : List WireValue → DbusRes (List α)
  | [] => .ok []
  | w :: ws =>
    DbusRes.bind (c w) fun a =>
    DbusRes.bind (mapConv c ws) fun rest =>
    .ok (a :: rest)

/-- Extract one record field from a property map and convert it; any
failure is tagged with the field name (Modelled from the spec, 4.2). -/
def getField {α : Type} (m : List (String × WireValue)) (name : String)
    (c : WireValue → DbusRes α) : DbusRes α :=
  tagF name (match lookupKey m name with
    | none => .err (.missingKey name)
    | some w => c w)

/-- Extract a sequence-valued record field and convert it elementwise,
tagging any failure with the field name. -/
def getListField {α : Type} (m : List (String × WireValue)) (name : String)
    (c : WireValue → DbusRes α) : DbusRes (List α) :=
  tagF name (match lookupKey m name with
    | none => .err (.missingKey name)
    | some (.arr ws) => mapConv c ws
    | some _ => .err (.typeMismatch "array"))

/- Domain record types bound by dbus_propmap, with the exact field lists and
declaration order of the source.  The struct definitions themselves live in
btstack outside src/; the field lists below are the ones fixed in src/ by
the propmap bindings.  The propmap macro body is outside src/ and is
modelled from the spec (4.2): every field is converted independently with
its own converter in declaration order, and a field failure aborts the
conversion, tagged with the field name. -/

/-- BluetoothGattDescriptorDBus: uuid, instance_id, permissions. -/
structure BluetoothGattDescriptor where
  uuid : Uuid128Bit
  instance_id : Int
  permissions : Int
deriving DecidableEq

def BluetoothGattDescriptor.from_dbus : WireValue → DbusRes BluetoothGattDescriptor
  | .propMap m =>
    DbusRes.bind (getField m "uuid" WireValue.asUuid) fun uuid =>
    DbusRes.bind (getField m "instance_id" WireValue.asI32) fun instance_id =>
    DbusRes.bind (getField m "permissions" WireValue.asI32) fun permissions =>
    .ok ⟨uuid, instance_id, permissions⟩
  | _ => .err (.typeMismatch "propmap")

def BluetoothGattDescriptor.to_dbus (d : BluetoothGattDescriptor) : WireValue :=
  .propMap [("uuid", .bytes d.uuid.val), ("instance_id", .i32v d.instance_id),
    ("permissions", .i32v d.permissions)]

/-- BluetoothGattCharacteristicDBus: uuid, instance_id, properties,
permissions, key_size, write_type, descriptors. -/
structure BluetoothGattCharacteristic where
  uuid : Uuid128Bit
  instance_id : Int
  properties : Int
  permissions : Int
  key_size : Int
  write_type : GattWriteType
  descriptors : List BluetoothGattDescriptor
deriving DecidableEq

def BluetoothGattCharacteristic.from_dbus : WireValue → DbusRes BluetoothGattCharacteristic
  | .propMap m =>
    DbusRes.bind (getField m "uuid" WireValue.asUuid) fun uuid =>
    DbusRes.bind (getField m "instance_id" WireValue.asI32) fun instance_id =>
    DbusRes.bind (getField m "properties" WireValue.asI32) fun properties =>
    DbusRes.bind (getField m "permissions" WireValue.asI32) fun permissions =>
    DbusRes.bind (getField m "key_size" WireValue.asI32) fun key_size =>
    DbusRes.bind (getField m "write_type" (WireValue.asEnum gattWriteTypeCodec)) fun write_type =>
    DbusRes.bind (getListField m "descriptors" BluetoothGattDescriptor.from_dbus) fun descriptors =>
    .ok ⟨uuid, instance_id, properties, permissions, key_size, write_type, descriptors⟩
  | _ => .err (.typeMismatch "propmap")

def BluetoothGattCharacteristic.to_dbus (c : BluetoothGattCharacteristic) : WireValue :=
  .propMap [("uuid", .bytes c.uuid.val), ("instance_id", .i32v c.instance_id),
    ("properties", .i32v c.properties), ("permissions", .i32v c.permissions),
    ("key_size", .i32v c.key_size),
    ("write_type", .u32v (gattWriteTypeCodec.code c.write_type)),
    ("descriptors", .arr (c.descriptors.map BluetoothGattDescriptor.to_dbus))]

/-- BluetoothGattServiceDBus: uuid, instance_id, service_type,
characteristics, included_services (a by-value recursive sequence of
services, so a finite tree). -/
inductive BluetoothGattService where
  | mk (uuid : Uuid128Bit) (instance_id : Int) (service_type : Int)
      (characteristics : List BluetoothGattCharacteristic)
      (included_services : List BluetoothGattService) : BluetoothGattService

mutual

def BluetoothGattService.from_dbus : WireValue → DbusRes BluetoothGattService
  | .propMap m =>
    DbusRes.bind (getField m "uuid" WireValue.asUuid) fun uuid =>
    DbusRes.bind (getField m "instance_id" WireValue.asI32) fun instance_id =>
    DbusRes.bind (getField m "service_type" WireValue.asI32) fun service_type =>
    DbusRes.bind (getListField m "characteristics" BluetoothGattCharacteristic.from_dbus)
      fun characteristics =>
    DbusRes.bind (tagF "included_services"
      (match h : lookupKey m "included_services" with
        | none => .err (.missingKey "included_services")
        | some (.arr ws) => BluetoothGattService.listFrom ws
        | some _ => .err (.typeMismatch "array"))) fun included_services =>
    .ok (.mk uuid instance_id service_type characteristics included_services)
  | _ => .err (.typeMismatch "propmap")
termination_by w => sizeOf w
decreasing_by
  simp_wf
  have h1 := lookupKey_sizeOf h
  simp at h1
  omega

def BluetoothGattService.listFrom : List WireValue → DbusRes (List BluetoothGattService)
  | [] => .ok []
  | w :: ws =>
    DbusRes.bind (BluetoothGattService.from_dbus w) fun s =>
    DbusRes.bind (BluetoothGattService.listFrom ws) fun rest =>
    .ok (s :: rest)
termination_by ws => sizeOf ws

end

mutual

def BluetoothGattService.to_dbus : BluetoothGattService → WireValue
  | .mk uuid instance_id service_type characteristics included_services =>
    .propMap [("uuid", .bytes uuid.val), ("instance_id", .i32v instance_id),
      ("service_type", .i32v service_type),
      ("characteristics", .arr (characteristics.map BluetoothGattCharacteristic.to_dbus)),
      ("included_services", .arr (BluetoothGattService.listTo included_services))]
termination_by s => sizeOf s

def BluetoothGattService.listTo : List BluetoothGattService → List WireValue
  | [] => []
  | s :: ss => BluetoothGattService.to_dbus s :: BluetoothGattService.listTo ss
termination_by ss => sizeOf ss

end

/-- RSSISettingsDBus: low_threshold, high_threshold. -/
structure RSSISettings where
  low_threshold : Int
  high_threshold : Int
deriving DecidableEq

def RSSISettings.from_dbus : WireValue → DbusRes RSSISettings
  | .propMap m =>
    DbusRes.bind (getField m "low_threshold" WireValue.asI32) fun low_threshold =>
    DbusRes.bind (getField m "high_threshold" WireValue.asI32) fun high_threshold =>
    .ok ⟨low_threshold, high_threshold⟩
  | _ => .err (.typeMismatch "propmap")

def RSSISettings.to_dbus (r : RSSISettings) : WireValue :=
  .propMap [("low_threshold", .i32v r.low_threshold),
    ("high_threshold", .i32v r.high_threshold)]

/-- ScanSettingsDBus: interval, window, scan_type, rssi_settings (a nested
aggregate converted by its own binding). -/
structure ScanSettings where
  interval : Int
  window : Int
  scan_type : ScanType
  rssi_settings : RSSISettings
deriving DecidableEq

def ScanSettings.from_dbus : WireValue → DbusRes ScanSettings
  | .propMap m =>
    DbusRes.bind (getField m "interval" WireValue.asI32) fun interval =>
    DbusRes.bind (getField m "window" WireValue.asI32) fun window =>
    DbusRes.bind (getField m "scan_type" (WireValue.asEnum scanTypeCodec)) fun scan_type =>
    DbusRes.bind (getField m "rssi_settings" RSSISettings.from_dbus) fun rssi_settings =>
    .ok ⟨interval, window, scan_type, rssi_settings⟩
  | _ => .err (.typeMismatch "propmap")

def ScanSettings.to_dbus (s : ScanSettings) : WireValue :=
  .propMap [("interval", .i32v s.interval), ("window", .i32v s.window),
    ("scan_type", .u32v (scanTypeCodec.code s.scan_type)),
    ("rssi_settings", s.rssi_settings.to_dbus)]

/-- ScanResultDBus: address, addr_type, event_type, primary_phy,
secondary_phy, advertising_sid, tx_power, rssi, periodic_adv_int, adv_data. -/
structure ScanResult where
  address : String
  addr_type : Nat
  event_type : Nat
  primary_phy : Nat
  secondary_phy : Nat
  advertising_sid : Nat
  tx_power : Int
  rssi : Int
  periodic_adv_int : Nat
  adv_data : List Nat
deriving DecidableEq

def ScanResult.from_dbus : WireValue → DbusRes ScanResult
  | .propMap m =>
    DbusRes.bind (getField m "address" WireValue.asStr) fun address =>
    DbusRes.bind (getField m "addr_type" WireValue.asU8) fun addr_type =>
    DbusRes.bind (getField m "event_type" WireValue.asU16) fun event_type =>
    DbusRes.bind (getField m "primary_phy" WireValue.asU8) fun primary_phy =>
    DbusRes.bind (getField m "secondary_phy" WireValue.asU8) fun secondary_phy =>
    DbusRes.bind (getField m "advertising_sid" WireValue.asU8) fun advertising_sid =>
    DbusRes.bind (getField m "tx_power" WireValue.asI8) fun tx_power =>
    DbusRes.bind (getField m "rssi" WireValue.asI8) fun rssi =>
    DbusRes.bind (getField m "periodic_adv_int" WireValue.asU16) fun periodic_adv_int =>
    DbusRes.bind (getField m "adv_data" WireValue.asBytes) fun adv_data =>
    .ok ⟨address, addr_type, event_type, primary_phy, secondary_phy,
      advertising_sid, tx_power, rssi, periodic_adv_int, adv_data⟩
  | _ => .err (.typeMismatch "propmap")

def ScanResult.to_dbus (s : ScanResult) : WireValue :=
  .propMap [("address", .strv s.address), ("addr_type", .u8v s.addr_type),
    ("event_type", .u16v s.event_type), ("primary_phy", .u8v s.primary_phy),
    ("secondary_phy", .u8v s.secondary_phy),
    ("advertising_sid", .u8v s.advertising_sid), ("tx_power", .i8v s.tx_power),
    ("rssi", .i8v s.rssi), ("periodic_adv_int", .u16v s.periodic_adv_int),
    ("adv_data", .bytes s.adv_data)]

/-- AdvertisingSetParametersDBus: connectable, scannable, is_legacy,
is_anonymous, include_tx_power, primary_phy, secondary_phy, interval,
tx_power_level, own_address_type. -/
structure AdvertisingSetParameters where
  connectable : Bool
  scannable : Bool
  is_legacy : Bool
  is_anonymous : Bool
  include_tx_power : Bool
  primary_phy : Int
  secondary_phy : Int
  interval : Int
  tx_power_level : Int
  own_address_type : Int
deriving DecidableEq

def AdvertisingSetParameters.from_dbus : WireValue → DbusRes AdvertisingSetParameters
  | .propMap m =>
    DbusRes.bind (getField m "connectable" WireValue.asBool) fun connectable =>
    DbusRes.bind (getField m "scannable" WireValue.asBool) fun scannable =>
    DbusRes.bind (getField m "is_legacy" WireValue.asBool) fun is_legacy =>
    DbusRes.bind (getField m "is_anonymous" WireValue.asBool) fun is_anonymous =>
    DbusRes.bind (getField m "include_tx_power" WireValue.asBool) fun include_tx_power =>
    DbusRes.bind (getField m "primary_phy" WireValue.asI32) fun primary_phy =>
    DbusRes.bind (getField m "secondary_phy" WireValue.asI32) fun secondary_phy =>
    DbusRes.bind (getField m "interval" WireValue.asI32) fun interval =>
    DbusRes.bind (getField m "tx_power_level" WireValue.asI32) fun tx_power_level =>
    DbusRes.bind (getField m "own_address_type" WireValue.asI32) fun own_address_type =>
    .ok ⟨connectable, scannable, is_legacy, is_anonymous, include_tx_power,
      primary_phy, secondary_phy, interval, tx_power_level, own_address_type⟩
  | _ => .err (.typeMismatch "propmap")

def AdvertisingSetParameters.to_dbus (p : AdvertisingSetParameters) : WireValue :=
  .propMap [("connectable", .boolv p.connectable), ("scannable", .boolv p.scannable),
    ("is_legacy", .boolv p.is_legacy), ("is_anonymous", .boolv p.is_anonymous),
    ("include_tx_power", .boolv p.include_tx_power),
    ("primary_phy", .i32v p.primary_phy), ("secondary_phy", .i32v p.secondary_phy),
    ("interval", .i32v p.interval), ("tx_power_level", .i32v p.tx_power_level),
    ("own_address_type", .i32v p.own_address_type)]

/-- AdvertiseDataDBus: service_uuids, solicit_uuids,
transport_discovery_data, manufacturer_data, service_data,
include_tx_power_level, include_device_name.  The two hash maps are
modelled by their entry lists. -/
structure AdvertiseData where
  service_uuids : List String
  solicit_uuids : List String
  transport_discovery_data : List (List Nat)
  manufacturer_data : List (Int × List Nat)
  service_data : List (String × List Nat)
  include_tx_power_level : Bool
  include_device_name : Bool
deriving DecidableEq

def AdvertiseData.from_dbus : WireValue → DbusRes AdvertiseData
  | .propMap m =>
    DbusRes.bind (getListField m "service_uuids" WireValue.asStr) fun service_uuids =>
    DbusRes.bind (getListField m "solicit_uuids" WireValue.asStr) fun solicit_uuids =>
    DbusRes.bind (getListField m "transport_discovery_data" WireValue.asBytes)
      fun transport_discovery_data =>
    DbusRes.bind (getField m "manufacturer_data" WireValue.asDictI) fun manufacturer_data =>
    DbusRes.bind (getField m "service_data" WireValue.asDictS) fun service_data =>
    DbusRes.bind (getField m "include_tx_power_level" WireValue.asBool)
      fun include_tx_power_level =>
    DbusRes.bind (getField m "include_device_name" WireValue.asBool)
      fun include_device_name =>
    .ok ⟨service_uuids, solicit_uuids, transport_discovery_data, manufacturer_data,
      service_data, include_tx_power_level, include_device_name⟩
  | _ => .err (.typeMismatch "propmap")

def AdvertiseData.to_dbus (d : AdvertiseData) : WireValue :=
  .propMap [("service_uuids", .arr (d.service_uuids.map WireValue.strv)),
    ("solicit_uuids", .arr (d.solicit_uuids.map WireValue.strv)),
    ("transport_discovery_data", .arr (d.transport_discovery_data.map WireValue.bytes)),
    ("manufacturer_data", .dictI d.manufacturer_data),
    ("service_data", .dictS d.service_data),
    ("include_tx_power_level", .boolv d.include_tx_power_level),
    ("include_device_name", .boolv d.include_device_name)]

/-- PeriodicAdvertisingParametersDBus: include_tx_power, interval. -/
structure PeriodicAdvertisingParameters where
  include_tx_power : Bool
  interval : Int
deriving DecidableEq

def PeriodicAdvertisingParameters.from_dbus : WireValue → DbusRes PeriodicAdvertisingParameters
  | .propMap m =>
    DbusRes.bind (getField m "include_tx_power" WireValue.asBool) fun include_tx_power =>
    DbusRes.bind (getField m "interval" WireValue.asI32) fun interval =>
    .ok ⟨include_tx_power, interval⟩
  | _ => .err (.typeMismatch "propmap")

def PeriodicAdvertisingParameters.to_dbus (p : PeriodicAdvertisingParameters) : WireValue :=
  .propMap [("include_tx_power", .boolv p.include_tx_power),
    ("interval", .i32v p.interval)]

/- The outward-facing operation table: impl IBluetoothGatt for
IBluetoothGattDBus under generate_dbus_exporter.  Each method is recorded
with its exact source parameter list (name and wire type, in order), its
return type, its dbus_method wire name when it has one, and its body kind:
dbus_generated (delegation to the provider) or an unconditional todo
placeholder. -/

inductive EnumName where
  | gattStatus : EnumName
  | gattWriteRequestStatus : EnumName
  | gattWriteType : EnumName
  | lePhy : EnumName
  | scanType : EnumName
deriving DecidableEq, Fintype

inductive StructName where
  | scanSettings : StructName
  | scanFilter : StructName
  | scanResult : StructName
  | rssiSettings : StructName
  | advertisingSetParameters : StructName
  | advertiseData : StructName
  | periodicAdvertisingParameters : StructName
  | bluetoothGattService : StructName
  | bluetoothGattCharacteristic : StructName
  | bluetoothGattDescriptor : StructName
deriving DecidableEq, Fintype

/-- The Rust surface type of a method parameter or return value. -/
inductive WireTy where
  | u8 : WireTy
  | u16 : WireTy
  | u32 : WireTy
  | i8 : WireTy
  | i32 : WireTy
  | boolT : WireTy
  | strT : WireTy
  | bytesT : WireTy
  | uuid128 : WireTy
  | enumT : EnumName → WireTy
  | structT : StructName → WireTy
  | optionT : WireTy → WireTy
  | vecT : WireTy → WireTy
  | callbackT : String → WireTy
deriving DecidableEq

/-- The set of values a wire integer type can carry; used to state the
range of the scanner, callback and client identifier types. -/
def WireTy.inRange : WireTy → Int → Prop
  | .u8, n => 0 ≤ n ∧ n < 256
  | .u16, n => 0 ≤ n ∧ n < 65536
  | .u32, n => 0 ≤ n ∧ n < 4294967296
  | .i8, n => -128 ≤ n ∧ n < 128
  | .i32, n => -2147483648 ≤ n ∧ n < 2147483648
  | _, _ => True

/-- Body kind of an exporter method: dbus_generated delegation, or an
unconditional todo placeholder (the Rust todo macro panics immediately
with a not-yet-implemented message whenever the method is entered). -/
inductive MethodBody where
  | generated : MethodBody
  | todoUnimplemented : MethodBody
deriving DecidableEq, Fintype

/-- The methods of impl IBluetoothGatt for IBluetoothGattDBus, in source
order. -/
inductive GattMethod where
  | register_scanner_callback : GattMethod
  | unregister_scanner_callback : GattMethod
  | register_scanner : GattMethod
  | unregister_scanner : GattMethod
  | start_scan : GattMethod
  | stop_scan : GattMethod
  | scan_filter_setup : GattMethod
  | scan_filter_add : GattMethod
  | scan_filter_clear : GattMethod
  | scan_filter_enable : GattMethod
  | scan_filter_disable : GattMethod
  | set_scan_parameters : GattMethod
  | batch_scan_config_storage : GattMethod
  | batch_scan_enable : GattMethod
  | batch_scan_disable : GattMethod
  | batch_scan_read_reports : GattMethod
  | register_advertiser_callback : GattMethod
  | unregister_advertiser_callback : GattMethod
  | start_advertising_set : GattMethod
  | stop_advertising_set : GattMethod
  | get_own_address : GattMethod
  | enable_advertising_set : GattMethod
  | set_advertising_data : GattMethod
  | set_scan_response_data : GattMethod
  | set_advertising_parameters : GattMethod
  | set_periodic_advertising_parameters : GattMethod
  | set_periodic_advertising_data : GattMethod
  | set_periodic_advertising_enable : GattMethod
  | start_sync : GattMethod
  | stop_sync : GattMethod
  | cancel_create_sync : GattMethod
  | transfer_sync : GattMethod
  | transfer_set_info : GattMethod
  | sync_tx_parameters : GattMethod
  | register_client : GattMethod
  | unregister_client : GattMethod
  | client_connect : GattMethod
  | client_disconnect : GattMethod
  | refresh_device : GattMethod
  | discover_services : GattMethod
  | discover_service_by_uuid : GattMethod
  | read_characteristic : GattMethod
  | read_using_characteristic_uuid : GattMethod
  | write_characteristic : GattMethod
  | read_descriptor : GattMethod
  | write_descriptor : GattMethod
  | register_for_notification : GattMethod
  | begin_reliable_write : GattMethod
  | end_reliable_write : GattMethod
  | read_remote_rssi : GattMethod
  | configure_mtu : GattMethod
  | connection_parameter_update : GattMethod
  | execute_write : GattMethod
  | deregister_for_notification : GattMethod
  | get_device_type : GattMethod
  | client_set_preferred_phy : GattMethod
  | client_read_phy : GattMethod
  | test_command : GattMethod
  | get_gatt_db : GattMethod
  | register_server : GattMethod
  | unregister_server : GattMethod
  | server_connect : GattMethod
  | server_disconnect : GattMethod
  | add_service : GattMethod
  | stop_service : GattMethod
  | delete_service : GattMethod
  | send_indication : GattMethod
  | send_response : GattMethod
  | server_set_preferred_phy : GattMethod
  | server_read_phy : GattMethod
deriving DecidableEq, Fintype

/-- Every method of the exporter, in source order. -/
def gattMethodList : List GattMethod :=
  [.register_scanner_callback, .unregister_scanner_callback, .register_scanner,
   .unregister_scanner, .start_scan, .stop_scan, .scan_filter_setup,
   .scan_filter_add, .scan_filter_clear, .scan_filter_enable,
   .scan_filter_disable, .set_scan_parameters, .batch_scan_config_storage,
   .batch_scan_enable, .batch_scan_disable, .batch_scan_read_reports,
   .register_advertiser_callback, .unregister_advertiser_callback,
   .start_advertising_set, .stop_advertising_set, .get_own_address,
   .enable_advertising_set, .set_advertising_data, .set_scan_response_data,
   .set_advertising_parameters, .set_periodic_advertising_parameters,
   .set_periodic_advertising_data, .set_periodic_advertising_enable,
   .start_sync, .stop_sync, .cancel_create_sync, .transfer_sync,
   .transfer_set_info, .sync_tx_parameters, .register_client,
   .unregister_client, .client_connect, .client_disconnect, .refresh_device,
   .discover_services, .discover_service_by_uuid, .read_characteristic,
   .read_using_characteristic_uuid, .write_characteristic, .read_descriptor,
   .write_descriptor, .register_for_notification, .begin_reliable_write,
   .end_reliable_write, .read_remote_rssi, .configure_mtu,
   .connection_parameter_update, .execute_write, .deregister_for_notification,
   .get_device_type, .client_set_preferred_phy, .client_read_phy,
   .test_command, .get_gatt_db, .register_server, .unregister_server,
   .server_connect, .server_disconnect, .add_service, .stop_service,
   .delete_service, .send_indication, .send_response,
   .server_set_preferred_phy, .server_read_phy]

/-- Parameter list (name, type) of each exporter method, in source order;
the receiver self is omitted. -/
def gattMethodParams : GattMethod → List (String × WireTy)
  | .register_scanner_callback => [("callback", .callbackT "IScannerCallback")]
  | .unregister_scanner_callback => [("callback_id", .u32)]
  | .register_scanner => [("callback_id", .u32)]
  | .unregister_scanner => [("scanner_id", .u8)]
  | .start_scan => [("scanner_id", .u8), ("settings", .structT .scanSettings),
      ("filters", .vecT (.structT .scanFilter))]
  | .stop_scan => [("scanner_id", .u8)]
  | .scan_filter_setup => []
  | .scan_filter_add => []
  | .scan_filter_clear => []
  | .scan_filter_enable => []
  | .scan_filter_disable => []
  | .set_scan_parameters => []
  | .batch_scan_config_storage => []
  | .batch_scan_enable => []
  | .batch_scan_disable => []
  | .batch_scan_read_reports => []
  | .register_advertiser_callback => [("callback", .callbackT "IAdvertisingSetCallback")]
  | .unregister_advertiser_callback => [("callback_id", .u32)]
  | .start_advertising_set =>
      [("parameters", .structT .advertisingSetParameters),
       ("advertise_data", .structT .advertiseData),
       ("scan_response", .optionT (.structT .advertiseData)),
       ("periodic_parameters", .optionT (.structT .periodicAdvertisingParameters)),
       ("periodic_data", .optionT (.structT .advertiseData)),
       ("duration", .i32), ("max_ext_adv_events", .i32), ("callback_id", .u32)]
  | .stop_advertising_set => [("advertiser_id", .i32)]
  | .get_own_address => [("advertiser_id", .i32)]
  | .enable_advertising_set => [("advertiser_id", .i32), ("enable", .boolT),
      ("duration", .i32), ("max_ext_adv_events", .i32)]
  | .set_advertising_data => [("advertiser_id", .i32), ("data", .structT .advertiseData)]
  | .set_scan_response_data => [("advertiser_id", .i32), ("data", .structT .advertiseData)]
  | .set_advertising_parameters => [("advertiser_id", .i32),
      ("parameters", .structT .advertisingSetParameters)]
  | .set_periodic_advertising_parameters => [("advertiser_id", .i32),
      ("parameters", .structT .periodicAdvertisingParameters)]
  | .set_periodic_advertising_data => [("advertiser_id", .i32),
      ("data", .structT .advertiseData)]
  | .set_periodic_advertising_enable => [("advertiser_id", .i32), ("enable", .boolT)]
  | .start_sync => []
  | .stop_sync => []
  | .cancel_create_sync => []
  | .transfer_sync => []
  | .transfer_set_info => []
  | .sync_tx_parameters => []
  | .register_client => [("app_uuid", .strT),
      ("callback", .callbackT "IBluetoothGattCallback"), ("eatt_support", .boolT)]
  | .unregister_client => [("client_id", .i32)]
  | .client_connect => [("client_id", .i32), ("addr", .strT), ("is_direct", .boolT),
      ("transport", .i32), ("opportunistic", .boolT), ("phy", .i32)]
  | .client_disconnect => [("client_id", .i32), ("addr", .strT)]
  | .refresh_device => [("client_id", .i32), ("addr", .strT)]
  | .discover_services => [("client_id", .i32), ("addr", .strT)]
  | .discover_service_by_uuid => [("client_id", .i32), ("addr", .strT), ("uuid", .strT)]
  | .read_characteristic => [("client_id", .i32), ("addr", .strT), ("handle", .i32),
      ("auth_req", .i32)]
  | .read_using_characteristic_uuid => [("client_id", .i32), ("addr", .strT),
      ("uuid", .strT), ("start_handle", .i32), ("end_handle", .i32), ("auth_req", .i32)]
  | .write_characteristic => [("client_id", .i32), ("addr", .strT), ("handle", .i32),
      ("write_type", .enumT .gattWriteType), ("auth_req", .i32), ("value", .bytesT)]
  | .read_descriptor => [("client_id", .i32), ("addr", .strT), ("handle", .i32),
      ("auth_req", .i32)]
  | .write_descriptor => [("client_id", .i32), ("addr", .strT), ("handle", .i32),
      ("auth_req", .i32), ("value", .bytesT)]
  | .register_for_notification => [("client_id", .i32), ("addr", .strT),
      ("handle", .i32), ("enable", .boolT)]
  | .begin_reliable_write => [("client_id", .i32), ("addr", .strT)]
  | .end_reliable_write => [("client_id", .i32), ("addr", .strT), ("execute", .boolT)]
  | .read_remote_rssi => [("client_id", .i32), ("addr", .strT)]
  | .configure_mtu => [("client_id", .i32), ("addr", .strT), ("mtu", .i32)]
  | .connection_parameter_update => [("client_id", .i32), ("addr", .strT),
      ("min_interval", .i32), ("max_interval", .i32), ("latency", .i32),
      ("timeout", .i32), ("min_ce_len", .u16), ("max_ce_len", .u16)]
  | .execute_write => []
  | .deregister_for_notification => []
  | .get_device_type => []
  | .client_set_preferred_phy => [("client_id", .i32), ("addr", .strT),
      ("tx_phy", .enumT .lePhy), ("rx_phy", .enumT .lePhy), ("phy_options", .i32)]
  | .client_read_phy => [("client_id", .i32), ("addr", .strT)]
  | .test_command => []
  | .get_gatt_db => []
  | .register_server => []
  | .unregister_server => []
  | .server_connect => []
  | .server_disconnect => []
  | .add_service => []
  | .stop_service => []
  | .delete_service => []
  | .send_indication => []
  | .send_response => []
  | .server_set_preferred_phy => []
  | .server_read_phy => []

/-- Return type of each exporter method; none models the Rust unit return. -/
def gattMethodRet : GattMethod → Option WireTy
  | .register_scanner_callback => some .u32
  | .unregister_scanner_callback => some .boolT
  | .register_scanner => some .uuid128
  | .unregister_scanner => some .boolT
  | .register_advertiser_callback => some .u32
  | .start_advertising_set => some .i32
  | .write_characteristic => some (.enumT .gattWriteRequestStatus)
  | _ => none

/-- The dbus_method attribute wire name of each exporter method; none when
the method carries no dbus_method binding in the source. -/
def gattMethodDbusName : GattMethod → Option String
  | .register_scanner_callback => some "RegisterScannerCallback"
  | .unregister_scanner_callback => some "UnregisterScannerCallback"
  | .register_scanner => some "RegisterScanner"
  | .unregister_scanner => some "UnregisterScanner"
  | .start_scan => some "StartScan"
  | .stop_scan => some "StopScan"
  | .register_advertiser_callback => some "RegisterAdvertiserCallback"
  | .unregister_advertiser_callback => some "UnregisterAdvertiserCallback"
  | .start_advertising_set => some "StartAdvertisingSet"
  | .stop_advertising_set => some "StopAdvertisingSet"
  | .get_own_address => some "GetOwnAddress"
  | .enable_advertising_set => some "EnableAdvertisingSet"
  | .set_advertising_data => some "SetAdvertisingData"
  | .set_scan_response_data => some "SetScanResponseData"
  | .set_advertising_parameters => some "SetAdvertisingParameters"
  | .set_periodic_advertising_parameters => some "SetPeriodicAdvertisingParameters"
  | .set_periodic_advertising_data => some "SetPeriodicAdvertisingData"
  | .set_periodic_advertising_enable => some "SetPeriodicAdvertisingEnable"
  | .register_client => some "RegisterClient"
  | .unregister_client => some "UnregisterClient"
  | .client_connect => some "ClientConnect"
  | .client_disconnect => some "ClientDisconnect"
  | .refresh_device => some "RefreshDevice"
  | .discover_services => some "DiscoverServices"
  | .discover_service_by_uuid => some "DiscoverServiceByUuid"
  | .read_characteristic => some "ReadCharacteristic"
  | .read_using_characteristic_uuid => some "ReadUsingCharacteristicUuid"
  | .write_characteristic => some "WriteCharacteristic"
  | .read_descriptor => some "ReadDescriptor"
  | .write_descriptor => some "WriteDescriptor"
  | .register_for_notification => some "RegisterForNotification"
  | .begin_reliable_write => some "BeginReliableWrite"
  | .end_reliable_write => some "EndReliableWrite"
  | .read_remote_rssi => some "ReadRemoteRssi"
  | .configure_mtu => some "ConfigureMtu"
  | .connection_parameter_update => some "ConnectionParameterUpdate"
  | .client_set_preferred_phy => some "ClientSetPreferredPhy"
  | .client_read_phy => some "ClientReadPhy"
  | _ => none

/-- Body kind of each exporter method, read off the source: every method
with a dbus_method attribute has a dbus_generated body, the remaining
methods are unconditional todo placeholders. -/
def gattMethodBody : GattMethod → MethodBody
  | .scan_filter_setup | .scan_filter_add | .scan_filter_clear
  | .scan_filter_enable | .scan_filter_disable | .set_scan_parameters
  | .batch_scan_config_storage | .batch_scan_enable | .batch_scan_disable
  | .batch_scan_read_reports
  | .start_sync | .stop_sync | .cancel_create_sync | .transfer_sync
  | .transfer_set_info | .sync_tx_parameters
  | .execute_write | .deregister_for_notification | .get_device_type
  | .test_command | .get_gatt_db
  | .register_server | .unregister_server | .server_connect
  | .server_disconnect | .add_service | .stop_service | .delete_service
  | .send_indication | .send_response | .server_set_preferred_phy
  | .server_read_phy => .todoUnimplemented
  | _ => .generated

/-- Operation group of each exporter method, following the section comments
of the source (Scanning, Advertising, GATT Client, GATT Server). -/
inductive MethodGroup where
  | scanning : MethodGroup
  | advertising : MethodGroup
  | gattClient : MethodGroup
  | gattServer : MethodGroup
deriving DecidableEq, Fintype

def gattMethodGroup : GattMethod → MethodGroup
  | .register_scanner_callback | .unregister_scanner_callback
  | .register_scanner | .unregister_scanner | .start_scan | .stop_scan
  | .scan_filter_setup | .scan_filter_add | .scan_filter_clear
  | .scan_filter_enable | .scan_filter_disable | .set_scan_parameters
  | .batch_scan_config_storage | .batch_scan_enable | .batch_scan_disable
  | .batch_scan_read_reports => .scanning
  | .register_advertiser_callback | .unregister_advertiser_callback
  | .start_advertising_set | .stop_advertising_set | .get_own_address
  | .enable_advertising_set | .set_advertising_data | .set_scan_response_data
  | .set_advertising_parameters | .set_periodic_advertising_parameters
  | .set_periodic_advertising_data | .set_periodic_advertising_enable => .advertising
  | .register_server | .unregister_server | .server_connect
  | .server_disconnect | .add_service | .stop_service | .delete_service
  | .send_indication | .send_response | .server_set_preferred_phy
  | .server_read_phy => .gattServer
  | _ => .gattClient

/-- Outcome of invoking an exporter method: normal completion with the
declared return value, a provider rejection passed through to the caller,
or the deterministic immediate failure of a todo placeholder. -/
inductive CallOutcome where
  | completed : Option WireValue → CallOutcome
  | providerError : Nat → CallOutcome
  | unimplemented : CallOutcome

/-- Invoking an exporter method: a dbus_generated body delegates to the
Bluetooth control-plane provider; a todo placeholder aborts immediately
without consulting the provider. -/
def invoke (provider : GattMethod → List WireValue → CallOutcome)
    (m : GattMethod) (args : List WireValue) : CallOutcome :=
  match gattMethodBody m with
  | .generated => provider m args
  | .todoUnimplemented => .unimplemented

/-- Remote dispatch: a wire method name reaches the unique exporter method
registered under that name; methods without a dbus_method binding are never
dispatched. -/
def dispatchWire (s : String) : Option GattMethod :=
  gattMethodList.find? (fun m => gattMethodDbusName m == some s)

/- The three callback proxy capability sets: dbus_proxy_obj impls whose
methods all have dbus_generated bodies.  The dbus_proxy_obj macro body is
outside src/; modelled from the spec (4.3): each proxy method is a pure
forwarding point that marshals exactly its arguments and emits one method
call to the remote callback object, returning no value. -/

/-- The methods of impl IBluetoothGattCallback for BluetoothGattCallbackDBus,
in source order. -/
inductive GattCallbackMethod where
  | on_client_registered : GattCallbackMethod
  | on_client_connection_state : GattCallbackMethod
  | on_phy_update : GattCallbackMethod
  | on_phy_read : GattCallbackMethod
  | on_search_complete : GattCallbackMethod
  | on_characteristic_read : GattCallbackMethod
  | on_characteristic_write : GattCallbackMethod
  | on_execute_write : GattCallbackMethod
  | on_descriptor_read : GattCallbackMethod
  | on_descriptor_write : GattCallbackMethod
  | on_notify : GattCallbackMethod
  | on_read_remote_rssi : GattCallbackMethod
  | on_configure_mtu : GattCallbackMethod
  | on_connection_updated : GattCallbackMethod
  | on_service_changed : GattCallbackMethod
deriving DecidableEq, Fintype

/-- Parameter list of each GATT callback method (the second parameter of
OnClientRegistered is named scanner_id in the source although it carries
the client registration id and is a signed 32-bit integer). -/
def gattCbParams : GattCallbackMethod → List (String × WireTy)
  | .on_client_registered => [("status", .enumT .gattStatus), ("scanner_id", .i32)]
  | .on_client_connection_state => [("status", .enumT .gattStatus),
      ("client_id", .i32), ("connected", .boolT), ("addr", .strT)]
  | .on_phy_update => [("addr", .strT), ("tx_phy", .enumT .lePhy),
      ("rx_phy", .enumT .lePhy), ("status", .enumT .gattStatus)]
  | .on_phy_read => [("addr", .strT), ("tx_phy", .enumT .lePhy),
      ("rx_phy", .enumT .lePhy), ("status", .enumT .gattStatus)]
  | .on_search_complete => [("addr", .strT),
      ("services", .vecT (.structT .bluetoothGattService)),
      ("status", .enumT .gattStatus)]
  | .on_characteristic_read => [("addr", .strT), ("status", .enumT .gattStatus),
      ("handle", .i32), ("value", .bytesT)]
  | .on_characteristic_write => [("addr", .strT), ("status", .enumT .gattStatus),
      ("handle", .i32)]
  | .on_execute_write => [("addr", .strT), ("status", .enumT .gattStatus)]
  | .on_descriptor_read => [("addr", .strT), ("status", .enumT .gattStatus),
      ("handle", .i32), ("value", .bytesT)]
  | .on_descriptor_write => [("addr", .strT), ("status", .enumT .gattStatus),
      ("handle", .i32)]
  | .on_notify => [("addr", .strT), ("handle", .i32), ("value", .bytesT)]
  | .on_read_remote_rssi => [("addr", .strT), ("rssi", .i32),
      ("status", .enumT .gattStatus)]
  | .on_configure_mtu => [("addr", .strT), ("mtu", .i32),
      ("status", .enumT .gattStatus)]
  | .on_connection_updated => [("addr", .strT), ("interval", .i32),
      ("latency", .i32), ("timeout", .i32), ("status", .enumT .gattStatus)]
  | .on_service_changed => [("addr", .strT)]

/-- Return type of each GATT callback method: every one returns the unit
type in the source. -/
def gattCbRet : GattCallbackMethod → Option WireTy
  | .on_client_registered => none
  | .on_client_connection_state => none
  | .on_phy_update => none
  | .on_phy_read => none
  | .on_search_complete => none
  | .on_characteristic_read => none
  | .on_characteristic_write => none
  | .on_execute_write => none
  | .on_descriptor_read => none
  | .on_descriptor_write => none
  | .on_notify => none
  | .on_read_remote_rssi => none
  | .on_configure_mtu => none
  | .on_connection_updated => none
  | .on_service_changed => none

/-- The methods of impl IScannerCallback for ScannerCallbackDBus. -/
inductive ScannerCallbackMethod where
  | on_scanner_registered : ScannerCallbackMethod
  | on_scan_result : ScannerCallbackMethod
deriving DecidableEq, Fintype

def scannerCbParams : ScannerCallbackMethod → List (String × WireTy)
  | .on_scanner_registered => [("uuid", .uuid128), ("scanner_id", .u8),
      ("status", .enumT .gattStatus)]
  | .on_scan_result => [("scan_result", .structT .scanResult)]

def scannerCbRet : ScannerCallbackMethod → Option WireTy
  | .on_scanner_registered => none
  | .on_scan_result => none

/-- The methods of impl IAdvertisingSetCallback for
AdvertisingSetCallbackDBus, in source order. -/
inductive AdvCallbackMethod where
  | on_advertising_set_started : AdvCallbackMethod
  | on_own_address_read : AdvCallbackMethod
  | on_advertising_set_stopped : AdvCallbackMethod
  | on_advertising_enabled : AdvCallbackMethod
  | on_advertising_data_set : AdvCallbackMethod
  | on_scan_response_data_set : AdvCallbackMethod
  | on_advertising_parameters_updated : AdvCallbackMethod
  | on_periodic_advertising_parameters_updated : AdvCallbackMethod
  | on_periodic_advertising_data_set : AdvCallbackMethod
  | on_periodic_advertising_enabled : AdvCallbackMethod
deriving DecidableEq, Fintype

def advCbParams : AdvCallbackMethod → List (String × WireTy)
  | .on_advertising_set_started => [("reg_id", .i32), ("advertiser_id", .i32),
      ("tx_power", .i32), ("status", .i32)]
  | .on_own_address_read => [("advertiser_id", .i32), ("address_type", .i32),
      ("address", .strT)]
  | .on_advertising_set_stopped => [("advertiser_id", .i32)]
  | .on_advertising_enabled => [("advertiser_id", .i32), ("enable", .boolT),
      ("status", .i32)]
  | .on_advertising_data_set => [("advertiser_id", .i32), ("status", .i32)]
  | .on_scan_response_data_set => [("advertiser_id", .i32), ("status", .i32)]
  | .on_advertising_parameters_updated => [("advertiser_id", .i32),
      ("tx_power", .i32), ("status", .i32)]
  | .on_periodic_advertising_parameters_updated => [("advertiser_id", .i32),
      ("status", .i32)]
  | .on_periodic_advertising_data_set => [("advertiser_id", .i32), ("status", .i32)]
  | .on_periodic_advertising_enabled => [("advertiser_id", .i32),
      ("enable", .boolT), ("status", .i32)]

def advCbRet : AdvCallbackMethod → Option WireTy
  | .on_advertising_set_started => none
  | .on_own_address_read => none
  | .on_advertising_set_stopped => none
  | .on_advertising_enabled => none
  | .on_advertising_data_set => none
  | .on_scan_response_data_set => none
  | .on_advertising_parameters_updated => none
  | .on_periodic_advertising_parameters_updated => none
  | .on_periodic_advertising_data_set => none
  | .on_periodic_advertising_enabled => none

/-- One outgoing method call emitted by a callback proxy to the remote
callback object: interface name, member name, marshalled argument list. -/
structure SentMessage where
  iface : String
  member : String
  body : List WireValue

/-- Wire form of a fieldless enum argument. -/
def enumWire {α : Type} (c : EnumCodec α) (v : α) : WireValue :=
  .u32v (c.code v)

/-- An invocation of a GATT client callback proxy method together with its
already-converted domain arguments, one constructor per method. -/
inductive GattCallbackCall where
  | on_client_registered (status : GattStatus) (scanner_id : Int) : GattCallbackCall
  | on_client_connection_state (status : GattStatus) (client_id : Int)
      (connected : Bool) (addr : String) : GattCallbackCall
  | on_phy_update (addr : String) (tx_phy : LePhy) (rx_phy : LePhy)
      (status : GattStatus) : GattCallbackCall
  | on_phy_read (addr : String) (tx_phy : LePhy) (rx_phy : LePhy)
      (status : GattStatus) : GattCallbackCall
  | on_search_complete (addr : String) (services : List BluetoothGattService)
      (status : GattStatus) : GattCallbackCall
  | on_characteristic_read (addr : String) (status : GattStatus) (handle : Int)
      (value : List Nat) : GattCallbackCall
  | on_characteristic_write (addr : String) (status : GattStatus)
      (handle : Int) : GattCallbackCall
  | on_execute_write (addr : String) (status : GattStatus) : GattCallbackCall
  | on_descriptor_read (addr : String) (status : GattStatus) (handle : Int)
      (value : List Nat) : GattCallbackCall
  | on_descriptor_write (addr : String) (status : GattStatus)
      (handle : Int) : GattCallbackCall
  | on_notify (addr : String) (handle : Int) (value : List Nat) : GattCallbackCall
  | on_read_remote_rssi (addr : String) (rssi : Int)
      (status : GattStatus) : GattCallbackCall
  | on_configure_mtu (addr : String) (mtu : Int)
      (status : GattStatus) : GattCallbackCall
  | on_connection_updated (addr : String) (interval : Int) (latency : Int)
      (timeout : Int) (status : GattStatus) : GattCallbackCall
  | on_service_changed (addr : String) : GattCallbackCall

def gattCbIface : String := "org.chromium.bluetooth.BluetoothGattCallback"

/-- The forwarding behaviour of the GATT callback proxy: each method emits
exactly one method call on the callback interface, whose body is the
marshalled argument list and nothing else. -/
def gattCallbackSend : GattCallbackCall → SentMessage
  | .on_client_registered status scanner_id =>
    ⟨gattCbIface, "OnClientRegistered",
      [enumWire gattStatusCodec status, .i32v scanner_id]⟩
  | .on_client_connection_state status client_id connected addr =>
    ⟨gattCbIface, "OnClientConnectionState",
      [enumWire gattStatusCodec status, .i32v client_id, .boolv connected, .strv addr]⟩
  | .on_phy_update addr tx_phy rx_phy status =>
    ⟨gattCbIface, "OnPhyUpdate",
      [.strv addr, enumWire lePhyCodec tx_phy, enumWire lePhyCodec rx_phy,
       enumWire gattStatusCodec status]⟩
  | .on_phy_read addr tx_phy rx_phy status =>
    ⟨gattCbIface, "OnPhyRead",
      [.strv addr, enumWire lePhyCodec tx_phy, enumWire lePhyCodec rx_phy,
       enumWire gattStatusCodec status]⟩
  | .on_search_complete addr services status =>
    ⟨gattCbIface, "OnSearchComplete",
      [.strv addr, .arr (services.map BluetoothGattService.to_dbus),
       enumWire gattStatusCodec status]⟩
  | .on_characteristic_read addr status handle value =>
    ⟨gattCbIface, "OnCharacteristicRead",
      [.strv addr, enumWire gattStatusCodec status, .i32v handle, .bytes value]⟩
  | .on_characteristic_write addr status handle =>
    ⟨gattCbIface, "OnCharacteristicWrite",
      [.strv addr, enumWire gattStatusCodec status, .i32v handle]⟩
  | .on_execute_write addr status =>
    ⟨gattCbIface, "OnExecuteWrite", [.strv addr, enumWire gattStatusCodec status]⟩
  | .on_descriptor_read addr status handle value =>
    ⟨gattCbIface, "OnDescriptorRead",
      [.strv addr, enumWire gattStatusCodec status, .i32v handle, .bytes value]⟩
  | .on_descriptor_write addr status handle =>
    ⟨gattCbIface, "OnDescriptorWrite",
      [.strv addr, enumWire gattStatusCodec status, .i32v handle]⟩
  | .on_notify addr handle value =>
    ⟨gattCbIface, "OnNotify", [.strv addr, .i32v handle, .bytes value]⟩
  | .on_read_remote_rssi addr rssi status =>
    ⟨gattCbIface, "OnReadRemoteRssi",
      [.strv addr, .i32v rssi, enumWire gattStatusCodec status]⟩
  | .on_configure_mtu addr mtu status =>
    ⟨gattCbIface, "OnConfigureMtu",
      [.strv addr, .i32v mtu, enumWire gattStatusCodec status]⟩
  | .on_connection_updated addr interval latency timeout status =>
    ⟨gattCbIface, "OnConnectionUpdated",
      [.strv addr, .i32v interval, .i32v latency, .i32v timeout,
       enumWire gattStatusCodec status]⟩
  | .on_service_changed addr =>
    ⟨gattCbIface, "OnServiceChanged", [.strv addr]⟩

/-- An invocation of a scanner callback proxy method with its arguments. -/
inductive ScannerCallbackCall where
  | on_scanner_registered (uuid : Uuid128Bit) (scanner_id : Nat)
      (status : GattStatus) : ScannerCallbackCall
  | on_scan_result (scan_result : ScanResult) : ScannerCallbackCall

def scannerCbIface : String := "org.chromium.bluetooth.ScannerCallback"

/-- The forwarding behaviour of the scanner callback proxy. -/
def scannerCallbackSend : ScannerCallbackCall → SentMessage
  | .on_scanner_registered uuid scanner_id status =>
    ⟨scannerCbIface, "OnScannerRegistered",
      [.bytes uuid.val, .u8v scanner_id, enumWire gattStatusCodec status]⟩
  | .on_scan_result scan_result =>
    ⟨scannerCbIface, "OnScanResult", [scan_result.to_dbus]⟩

/-- An invocation of an advertising-set callback proxy method with its
arguments. -/
inductive AdvCallbackCall where
  | on_advertising_set_started (reg_id : Int) (advertiser_id : Int)
      (tx_power : Int) (status : Int) : AdvCallbackCall
  | on_own_address_read (advertiser_id : Int) (address_type : Int)
      (address : String) : AdvCallbackCall
  | on_advertising_set_stopped (advertiser_id : Int) : AdvCallbackCall
  | on_advertising_enabled (advertiser_id : Int) (enable : Bool)
      (status : Int) : AdvCallbackCall
  | on_advertising_data_set (advertiser_id : Int) (status : Int) : AdvCallbackCall
  | on_scan_response_data_set (advertiser_id : Int) (status : Int) : AdvCallbackCall
  | on_advertising_parameters_updated (advertiser_id : Int) (tx_power : Int)
      (status : Int) : AdvCallbackCall
  | on_periodic_advertising_parameters_updated (advertiser_id : Int)
      (status : Int) : AdvCallbackCall
  | on_periodic_advertising_data_set (advertiser_id : Int)
      (status : Int) : AdvCallbackCall
  | on_periodic_advertising_enabled (advertiser_id : Int) (enable : Bool)
      (status : Int) : AdvCallbackCall

def advCbIface : String := "org.chromium.bluetooth.AdvertisingSetCallback"

/-- The forwarding behaviour of the advertising-set callback proxy. -/
def advCallbackSend : AdvCallbackCall → SentMessage
  | .on_advertising_set_started reg_id advertiser_id tx_power status =>
    ⟨advCbIface, "OnAdvertisingSetStarted",
      [.i32v reg_id, .i32v advertiser_id, .i32v tx_power, .i32v status]⟩
  | .on_own_address_read advertiser_id address_type address =>
    ⟨advCbIface, "OnOwnAddressRead",
      [.i32v advertiser_id, .i32v address_type, .strv address]⟩
  | .on_advertising_set_stopped advertiser_id =>
    ⟨advCbIface, "OnAdvertisingSetStopped", [.i32v advertiser_id]⟩
  | .on_advertising_enabled advertiser_id enable status =>
    ⟨advCbIface, "OnAdvertisingEnabled",
      [.i32v advertiser_id, .boolv enable, .i32v status]⟩
  | .on_advertising_data_set advertiser_id status =>
    ⟨advCbIface, "OnAdvertisingDataSet", [.i32v advertiser_id, .i32v status]⟩
  | .on_scan_response_data_set advertiser_id status =>
    ⟨advCbIface, "OnScanResponseDataSet", [.i32v advertiser_id, .i32v status]⟩
  | .on_advertising_parameters_updated advertiser_id tx_power status =>
    ⟨advCbIface, "OnAdvertisingParametersUpdated",
      [.i32v advertiser_id, .i32v tx_power, .i32v status]⟩
  | .on_periodic_advertising_parameters_updated advertiser_id status =>
    ⟨advCbIface, "OnPeriodicAdvertisingParametersUpdated",
      [.i32v advertiser_id, .i32v status]⟩
  | .on_periodic_advertising_data_set advertiser_id status =>
    ⟨advCbIface, "OnPeriodicAdvertisingDataSet",
      [.i32v advertiser_id, .i32v status]⟩
  | .on_periodic_advertising_enabled advertiser_id enable status =>
    ⟨advCbIface, "OnPeriodicAdvertisingEnabled",
      [.i32v advertiser_id, .boolv enable, .i32v status]⟩

/-- The placeholder operations enumerated by the spec: scan-filter setup
and management, scan-parameter tuning, the batch-scan family, the
periodic-sync family, execute_write, deregister_for_notification,
get_device_type, test_command, get_gatt_db, and the whole GATT server
family. -/
def unimplementedPlaceholders : List GattMethod :=
  [.scan_filter_setup, .scan_filter_add, .scan_filter_clear,
   .scan_filter_enable, .scan_filter_disable, .set_scan_parameters,
   .batch_scan_config_storage, .batch_scan_enable, .batch_scan_disable,
   .batch_scan_read_reports, .start_sync, .stop_sync, .cancel_create_sync,
   .transfer_sync, .transfer_set_info, .sync_tx_parameters, .execute_write,
   .deregister_for_notification, .get_device_type, .test_command,
   .get_gatt_db, .register_server, .unregister_server, .server_connect,
   .server_disconnect, .add_service, .stop_service, .delete_service,
   .send_indication, .send_response, .server_set_preferred_phy,
   .server_read_phy]

/- Helper lemmas. -/

theorem DbusRes.bind_eq_err {α β : Type} {x : DbusRes α} {k : α → DbusRes β}
    {e : MarshalError} (h : DbusRes.bind x k = .err e) :
    x = .err e ∨ ∃ a, x = .ok a ∧ k a = .err e := by
  cases x with
  | ok a => exact Or.inr ⟨a, rfl, h⟩
  | err e' =>
    simp [DbusRes.bind] at h
    subst h
    exact Or.inl rfl
  | panicked => simp [DbusRes.bind] at h

theorem tagF_eq_err {α : Type} {name : String} {x : DbusRes α} {e : MarshalError}
    (h : tagF name x = .err e) : ∃ e', e = .field name e' := by
  cases x with
  | ok a => simp [tagF] at h
  | err e' =>
    simp [tagF] at h
    exact ⟨e', h.symm⟩
  | panicked => simp [tagF] at h

theorem getField_eq_err {α : Type} {m : List (String × WireValue)} {name : String}
    {c : WireValue → DbusRes α} {e : MarshalError}
    (h : getField m name c = .err e) : ∃ e', e = .field name e' := by
  unfold getField at h
  exact tagF_eq_err h

theorem getListField_eq_err {α : Type} {m : List (String × WireValue)} {name : String}
    {c : WireValue → DbusRes α} {e : MarshalError}
    (h : getListField m name c = .err e) : ∃ e', e = .field name e' := by
  unfold getListField at h
  exact tagF_eq_err h

/- Per-enum roundtrip and injectivity facts used by several claims. -/

theorem gattStatus_roundtrip (v : GattStatus) :
    enum_from_dbus gattStatusCodec (gattStatusCodec.code v) = .ok v := by
  cases v <;> rfl

theorem gattWriteRequestStatus_roundtrip (v : GattWriteRequestStatus) :
    enum_from_dbus gattWriteRequestStatusCodec (gattWriteRequestStatusCodec.code v) = .ok v := by
  cases v <;> rfl

theorem gattWriteType_roundtrip (v : GattWriteType) :
    enum_from_dbus gattWriteTypeCodec (gattWriteTypeCodec.code v) = .ok v := by
  cases v <;> rfl

theorem lePhy_roundtrip (v : LePhy) :
    enum_from_dbus lePhyCodec (lePhyCodec.code v) = .ok v := by
  cases v <;> rfl

theorem scanType_roundtrip (v : ScanType) :
    enum_from_dbus scanTypeCodec (scanTypeCodec.code v) = .ok v := by
  cases v <;> rfl

theorem enum_from_dbus_unknown {α : Type} (c : EnumCodec α) (n : Nat)
    (h : ∀ v ∈ c.variants, c.code v ≠ n) :
    enum_from_dbus c n = .err (.invalidEnumValue n) := by
  have hn : c.variants.find? (fun v => c.code v == n) = none := by
    rw [List.find?_eq_none]
    intro v hv
    simpa using h v hv
  unfold enum_from_dbus
  rw [hn]

/-- C1: the spec requires that the UUID wire-to-domain conversion fail with
MarshalError LengthMismatch on any byte sequence whose length is not 16 and
never panic.  The code instead panics: from_dbus unwraps the failed
try_into, so a 15-byte and a 17-byte input both abort the process instead
of returning a marshalling error.  This theorem evaluates the model of the
source at those failing inputs. -/
theorem c1_uuid_wrong_length_panics :
    Uuid128Bit.from_dbus (List.replicate 15 0) = .panicked ∧
    Uuid128Bit.from_dbus (List.replicate 17 0) = .panicked := by
  constructor <;> rfl

/-- C3: conversion round-trip on domain values produced by this process:
every 16-byte UUID value survives to_dbus followed by from_dbus, with
to_dbus always succeeding, and every variant of the five wire-projected
enums survives to_wire followed by from_wire, with to_wire always
succeeding. -/
theorem c3_wire_roundtrip :
    (∀ v : Uuid128Bit, Uuid128Bit.to_dbus v = .ok v.val ∧
      Uuid128Bit.from_dbus v.val = .ok v) ∧
    (∀ v : GattStatus, enum_to_dbus gattStatusCodec v = .ok (gattStatusCodec.code v) ∧
      enum_from_dbus gattStatusCodec (gattStatusCodec.code v) = .ok v) ∧
    (∀ v : GattWriteRequestStatus,
      enum_to_dbus gattWriteRequestStatusCodec v = .ok (gattWriteRequestStatusCodec.code v) ∧
      enum_from_dbus gattWriteRequestStatusCodec (gattWriteRequestStatusCodec.code v) = .ok v) ∧
    (∀ v : GattWriteType, enum_to_dbus gattWriteTypeCodec v = .ok (gattWriteTypeCodec.code v) ∧
      enum_from_dbus gattWriteTypeCodec (gattWriteTypeCodec.code v) = .ok v) ∧
    (∀ v : LePhy, enum_to_dbus lePhyCodec v = .ok (lePhyCodec.code v) ∧
      enum_from_dbus lePhyCodec (lePhyCodec.code v) = .ok v) ∧
    (∀ v : ScanType, enum_to_dbus scanTypeCodec v = .ok (scanTypeCodec.code v) ∧
      enum_from_dbus scanTypeCodec (scanTypeCodec.code v) = .ok v) := by
  refine ⟨?_, fun v => ⟨rfl, gattStatus_roundtrip v⟩,
    fun v => ⟨rfl, gattWriteRequestStatus_roundtrip v⟩,
    fun v => ⟨rfl, gattWriteType_roundtrip v⟩,
    fun v => ⟨rfl, lePhy_roundtrip v⟩, fun v => ⟨rfl, scanType_roundtrip v⟩⟩
  intro v
  obtain ⟨l, hl⟩ := v
  exact ⟨rfl, by simp [Uuid128Bit.from_dbus, hl]⟩

/-- C5: for each of the five wire-projected enums, from_wire on the
discriminant of a known variant returns that variant, and from_wire on an
integer that is the discriminant of no variant fails with
MarshalError InvalidEnumValue. -/
theorem c5_enum_from_wire :
    ((∀ v : GattStatus, enum_from_dbus gattStatusCodec (gattStatusCodec.code v) = .ok v) ∧
     (∀ n : Nat, (∀ v : GattStatus, gattStatusCodec.code v ≠ n) →
       enum_from_dbus gattStatusCodec n = .err (.invalidEnumValue n))) ∧
    ((∀ v : GattWriteRequestStatus,
       enum_from_dbus gattWriteRequestStatusCodec (gattWriteRequestStatusCodec.code v) = .ok v) ∧
     (∀ n : Nat, (∀ v : GattWriteRequestStatus, gattWriteRequestStatusCodec.code v ≠ n) →
       enum_from_dbus gattWriteRequestStatusCodec n = .err (.invalidEnumValue n))) ∧
    ((∀ v : GattWriteType,
       enum_from_dbus gattWriteTypeCodec (gattWriteTypeCodec.code v) = .ok v) ∧
     (∀ n : Nat, (∀ v : GattWriteType, gattWriteTypeCodec.code v ≠ n) →
       enum_from_dbus gattWriteTypeCodec n = .err (.invalidEnumValue n))) ∧
    ((∀ v : LePhy, enum_from_dbus lePhyCodec (lePhyCodec.code v) = .ok v) ∧
     (∀ n : Nat, (∀ v : LePhy, lePhyCodec.code v ≠ n) →
       enum_from_dbus lePhyCodec n = .err (.invalidEnumValue n))) ∧
    ((∀ v : ScanType, enum_from_dbus scanTypeCodec (scanTypeCodec.code v) = .ok v) ∧
     (∀ n : Nat, (∀ v : ScanType, scanTypeCodec.code v ≠ n) →
       enum_from_dbus scanTypeCodec n = .err (.invalidEnumValue n))) :=
  ⟨⟨gattStatus_roundtrip, fun n h => enum_from_dbus_unknown _ n (fun v _ => h v)⟩,
   ⟨gattWriteRequestStatus_roundtrip, fun n h => enum_from_dbus_unknown _ n (fun v _ => h v)⟩,
   ⟨gattWriteType_roundtrip, fun n h => enum_from_dbus_unknown _ n (fun v _ => h v)⟩,
   ⟨lePhy_roundtrip, fun n h => enum_from_dbus_unknown _ n (fun v _ => h v)⟩,
   ⟨scanType_roundtrip, fun n h => enum_from_dbus_unknown _ n (fun v _ => h v)⟩⟩

/-- Witness for C5: the unknown integer 9999 is rejected with
InvalidEnumValue by the GattStatus converter, at a concrete input. -/
theorem c5_enum_from_wire_witness :
    enum_from_dbus gattStatusCodec 9999 = .err (.invalidEnumValue 9999) :=
  c5_enum_from_wire.1.2 9999 (by decide)

/-- Every exporter method whose wire name table is defined is generated;
helper for the export-surface claim. -/
theorem dbusName_iff_generated (m : GattMethod) :
    (gattMethodDbusName m).isSome ↔ gattMethodBody m = .generated := by
  cases m <;> simp [gattMethodDbusName, gattMethodBody]

/-- C2: every placeholder operation of the interface, when invoked, yields
the deterministic immediate unimplemented-capability failure regardless of
the provider, and that outcome is distinct from a normal completion and
from every provider error. -/
theorem c2_placeholders_unimplemented :
    ∀ (provider : GattMethod → List WireValue → CallOutcome)
      (args : List WireValue) (m : GattMethod), m ∈ unimplementedPlaceholders →
      invoke provider m args = .unimplemented ∧
      (∀ r, CallOutcome.unimplemented ≠ .completed r) ∧
      (∀ k, CallOutcome.unimplemented ≠ .providerError k) := by
  intro provider args m hm
  refine ⟨?_, fun r => by simp, fun k => by simp⟩
  fin_cases hm <;> rfl

/-- Witness for C2: invoking scan_filter_setup against a provider that
would complete every call still yields the unimplemented failure. -/
theorem c2_placeholders_unimplemented_witness :
    invoke (fun _ _ => .completed none) .scan_filter_setup [] = .unimplemented :=
  (c2_placeholders_unimplemented (fun _ _ => .completed none) [] .scan_filter_setup
    (by decide)).1

/-- C4: write_characteristic returns the admission-control status whose
values are exactly WriteSuccess, RequestFail, BusyFail, InvalidLengthFail
and PermissionFail, and it is the only method of the GATT client group
with a non-unit return type. -/
theorem c4_write_characteristic_only_sync_result :
    (∀ s : GattWriteRequestStatus, s = .writeSuccess ∨ s = .requestFail ∨
      s = .busyFail ∨ s = .invalidLengthFail ∨ s = .permissionFail) ∧
    gattMethodRet .write_characteristic = some (.enumT .gattWriteRequestStatus) ∧
    gattMethodGroup .write_characteristic = .gattClient ∧
    (∀ m : GattMethod, gattMethodGroup m = .gattClient →
      m ≠ .write_characteristic → gattMethodRet m = none) := by
  refine ⟨fun s => by cases s <;> simp, rfl, rfl, ?_⟩
  decide

/-- Witness for C4: the GATT client operation read_characteristic returns
no value. -/
theorem c4_write_characteristic_only_sync_result_witness :
    gattMethodRet .read_characteristic = none :=
  c4_write_characteristic_only_sync_result.2.2.2 .read_characteristic
    (by decide) (by decide)

/-- C9: an exporter method has a wire name exactly when its body is
dbus_generated, so remote dispatch by wire name can only ever reach a
generated method and never a todo placeholder. -/
theorem c9_exported_exactly_dbus_methods :
    (∀ m : GattMethod, (gattMethodDbusName m).isSome ↔ gattMethodBody m = .generated) ∧
    (∀ (s : String) (m : GattMethod), dispatchWire s = some m →
      gattMethodBody m = .generated) := by
  refine ⟨dbusName_iff_generated, ?_⟩
  intro s m h
  have hp := List.find?_some h
  have hname : gattMethodDbusName m = some s := by
    exact eq_of_beq hp
  exact (dbusName_iff_generated m).mp (by simp [hname])

/-- Witness for C9: dispatching the wire name RegisterScanner reaches
register_scanner, which is a generated method. -/
theorem c9_exported_exactly_dbus_methods_witness :
    gattMethodBody .register_scanner = .generated :=
  c9_exported_exactly_dbus_methods.2 "RegisterScanner" .register_scanner (by decide)

/-- C10 counterexample: the claim states that every interface point
carrying a scanner_id types it as an unsigned 8-bit integer, but the GATT
client callback method OnClientRegistered carries a parameter named
scanner_id typed as a signed 32-bit integer. -/
theorem c10_scanner_id_counterexample :
    ("scanner_id", WireTy.i32) ∈ gattCbParams .on_client_registered ∧
    WireTy.i32 ≠ WireTy.u8 := by
  decide

/-- C10 as amended: the scanner-facing interface points unregister_scanner,
start_scan, stop_scan and on_scanner_registered all type scanner_id as
unsigned 8-bit, whose values are exactly 0 to 255; every parameter named
callback_id anywhere in the exporter is unsigned 32-bit, as are the
callback-registration return values; every parameter named client_id in
the exporter and in the GATT callback interface is signed 32-bit; and the
i32 parameter named scanner_id on on_client_registered is the client
registration id, not a scanner id. -/
theorem c10_identifier_widths_amended :
    (("scanner_id", WireTy.u8) ∈ gattMethodParams .unregister_scanner ∧
     ("scanner_id", WireTy.u8) ∈ gattMethodParams .start_scan ∧
     ("scanner_id", WireTy.u8) ∈ gattMethodParams .stop_scan ∧
     ("scanner_id", WireTy.u8) ∈ scannerCbParams .on_scanner_registered) ∧
    (∀ m ∈ [GattMethod.unregister_scanner, .start_scan, .stop_scan],
      ∀ p ∈ gattMethodParams m, p.1 = "scanner_id" → p.2 = .u8) ∧
    (∀ p ∈ scannerCbParams .on_scanner_registered, p.1 = "scanner_id" → p.2 = .u8) ∧
    (∀ n : Int, WireTy.inRange .u8 n ↔ 0 ≤ n ∧ n ≤ 255) ∧
    (∀ (m : GattMethod), ∀ p ∈ gattMethodParams m, p.1 = "callback_id" → p.2 = .u32) ∧
    gattMethodRet .register_scanner_callback = some .u32 ∧
    gattMethodRet .register_advertiser_callback = some .u32 ∧
    (∀ (m : GattMethod), ∀ p ∈ gattMethodParams m, p.1 = "client_id" → p.2 = .i32) ∧
    (∀ (m : GattCallbackMethod), ∀ p ∈ gattCbParams m, p.1 = "client_id" → p.2 = .i32) ∧
    ("scanner_id", WireTy.i32) ∈ gattCbParams .on_client_registered := by
  refine ⟨by decide, by decide, by decide, ?_, by decide, rfl, rfl, by decide,
    by decide, by decide⟩
  intro n
  simp [WireTy.inRange]
  omega

/-- Witness for C10: the client_id parameter of client_connect is signed
32-bit, by the amended width discipline at a concrete interface point. -/
theorem c10_identifier_widths_amended_witness :
    (("client_id", WireTy.i32) : String × WireTy).2 = WireTy.i32 :=
  c10_identifier_widths_amended.2.2.2.2.2.2.2.1 .client_connect
    ("client_id", WireTy.i32) (by decide) rfl

/- Aggregate-binding facts: for each bound record, any conversion error is
tagged with one of the record's field names, and when every field converts
the record conversion succeeds with the independently converted fields in
declaration order. -/

theorem descriptor_err_tagged {m : List (String × WireValue)} {e : MarshalError}
    (h : BluetoothGattDescriptor.from_dbus (.propMap m) = .err e) :
    ∃ nm e', nm ∈ ["uuid", "instance_id", "permissions"] ∧ e = .field nm e' := by
  simp only [BluetoothGattDescriptor.from_dbus] at h
  rcases DbusRes.bind_eq_err h with h1 | ⟨a, ha, h⟩
  · obtain ⟨e', he⟩ := getField_eq_err h1
    exact ⟨"uuid", e', by simp, he⟩
  rcases DbusRes.bind_eq_err h with h1 | ⟨b, hb, h⟩
  · obtain ⟨e', he⟩ := getField_eq_err h1
    exact ⟨"instance_id", e', by simp, he⟩
  rcases DbusRes.bind_eq_err h with h1 | ⟨c, hc, h⟩
  · obtain ⟨e', he⟩ := getField_eq_err h1
    exact ⟨"permissions", e', by simp, he⟩
  · simp at h

theorem descriptor_from_fields {wu wi wp : WireValue} {u : Uuid128Bit} {i p : Int}
    (hu : WireValue.asUuid wu = .ok u) (hi : WireValue.asI32 wi = .ok i)
    (hp : WireValue.asI32 wp = .ok p) :
    BluetoothGattDescriptor.from_dbus
      (.propMap [("uuid", wu), ("instance_id", wi), ("permissions", wp)]) =
      .ok ⟨u, i, p⟩ := by
  simp [BluetoothGattDescriptor.from_dbus, getField, lookupKey, tagF,
    DbusRes.bind, hu, hi, hp]

theorem characteristic_err_tagged {m : List (String × WireValue)} {e : MarshalError}
    (h : BluetoothGattCharacteristic.from_dbus (.propMap m) = .err e) :
    ∃ nm e', nm ∈ ["uuid", "instance_id", "properties", "permissions",
      "key_size", "write_type", "descriptors"] ∧ e = .field nm e' := by
  simp only [BluetoothGattCharacteristic.from_dbus] at h
  rcases DbusRes.bind_eq_err h with h1 | ⟨a1, ha1, h⟩
  · obtain ⟨e', he⟩ := getField_eq_err h1
    exact ⟨"uuid", e', by simp, he⟩
  rcases DbusRes.bind_eq_err h with h1 | ⟨a2, ha2, h⟩
  · obtain ⟨e', he⟩ := getField_eq_err h1
    exact ⟨"instance_id", e', by simp, he⟩
  rcases DbusRes.bind_eq_err h with h1 | ⟨a3, ha3, h⟩
  · obtain ⟨e', he⟩ := getField_eq_err h1
    exact ⟨"properties", e', by simp, he⟩
  rcases DbusRes.bind_eq_err h with h1 | ⟨a4, ha4, h⟩
  · obtain ⟨e', he⟩ := getField_eq_err h1
    exact ⟨"permissions", e', by simp, he⟩
  rcases DbusRes.bind_eq_err h with h1 | ⟨a5, ha5, h⟩
  · obtain ⟨e', he⟩ := getField_eq_err h1
    exact ⟨"key_size", e', by simp, he⟩
  rcases DbusRes.bind_eq_err h with h1 | ⟨a6, ha6, h⟩
  · obtain ⟨e', he⟩ := getField_eq_err h1
    exact ⟨"write_type", e', by simp, he⟩
  rcases DbusRes.bind_eq_err h with h1 | ⟨a7, ha7, h⟩
  · obtain ⟨e', he⟩ := getListField_eq_err h1
    exact ⟨"descriptors", e', by simp, he⟩
  · simp at h

theorem characteristic_from_fields {wu wi wpr wpe wk wwt : WireValue}
    {wds : List WireValue} {u : Uuid128Bit} {i pr pe k : Int}
    {wt : GattWriteType} {ds : List BluetoothGattDescriptor}
    (hu : WireValue.asUuid wu = .ok u) (hi : WireValue.asI32 wi = .ok i)
    (hpr : WireValue.asI32 wpr = .ok pr) (hpe : WireValue.asI32 wpe = .ok pe)
    (hk : WireValue.asI32 wk = .ok k)
    (hwt : WireValue.asEnum gattWriteTypeCodec wwt = .ok wt)
    (hds : mapConv BluetoothGattDescriptor.from_dbus wds = .ok ds) :
    BluetoothGattCharacteristic.from_dbus
      (.propMap [("uuid", wu), ("instance_id", wi), ("properties", wpr),
        ("permissions", wpe), ("key_size", wk), ("write_type", wwt),
        ("descriptors", .arr wds)]) =
      .ok ⟨u, i, pr, pe, k, wt, ds⟩ := by
  simp [BluetoothGattCharacteristic.from_dbus, getField, getListField,
    lookupKey, tagF, DbusRes.bind, hu, hi, hpr, hpe, hk, hwt, hds]

theorem rssiSettings_err_tagged {m : List (String × WireValue)} {e : MarshalError}
    (h : RSSISettings.from_dbus (.propMap m) = .err e) :
    ∃ nm e', nm ∈ ["low_threshold", "high_threshold"] ∧ e = .field nm e' := by
  simp only [RSSISettings.from_dbus] at h
  rcases DbusRes.bind_eq_err h with h1 | ⟨a1, ha1, h⟩
  · obtain ⟨e', he⟩ := getField_eq_err h1
    exact ⟨"low_threshold", e', by simp, he⟩
  rcases DbusRes.bind_eq_err h with h1 | ⟨a2, ha2, h⟩
  · obtain ⟨e', he⟩ := getField_eq_err h1
    exact ⟨"high_threshold", e', by simp, he⟩
  · simp at h

theorem rssiSettings_from_fields {wl wh : WireValue} {l h' : Int}
    (hl : WireValue.asI32 wl = .ok l) (hh : WireValue.asI32 wh = .ok h') :
    RSSISettings.from_dbus
      (.propMap [("low_threshold", wl), ("high_threshold", wh)]) = .ok ⟨l, h'⟩ := by
  simp [RSSISettings.from_dbus, getField, lookupKey, tagF, DbusRes.bind, hl, hh]

theorem scanSettings_err_tagged {m : List (String × WireValue)} {e : MarshalError}
    (h : ScanSettings.from_dbus (.propMap m) = .err e) :
    ∃ nm e', nm ∈ ["interval", "window", "scan_type", "rssi_settings"] ∧
      e = .field nm e' := by
  simp only [ScanSettings.from_dbus] at h
  rcases DbusRes.bind_eq_err h with h1 | ⟨a1, ha1, h⟩
  · obtain ⟨e', he⟩ := getField_eq_err h1
    exact ⟨"interval", e', by simp, he⟩
  rcases DbusRes.bind_eq_err h with h1 | ⟨a2, ha2, h⟩
  · obtain ⟨e', he⟩ := getField_eq_err h1
    exact ⟨"window", e', by simp, he⟩
  rcases DbusRes.bind_eq_err h with h1 | ⟨a3, ha3, h⟩
  · obtain ⟨e', he⟩ := getField_eq_err h1
    exact ⟨"scan_type", e', by simp, he⟩
  rcases DbusRes.bind_eq_err h with h1 | ⟨a4, ha4, h⟩
  · obtain ⟨e', he⟩ := getField_eq_err h1
    exact ⟨"rssi_settings", e', by simp, he⟩
  · simp at h

theorem scanSettings_from_fields {wi ww wt wr : WireValue} {i w : Int}
    {t : ScanType} {r : RSSISettings}
    (hi : WireValue.asI32 wi = .ok i) (hw : WireValue.asI32 ww = .ok w)
    (ht : WireValue.asEnum scanTypeCodec wt = .ok t)
    (hr : RSSISettings.from_dbus wr = .ok r) :
    ScanSettings.from_dbus
      (.propMap [("interval", wi), ("window", ww), ("scan_type", wt),
        ("rssi_settings", wr)]) = .ok ⟨i, w, t, r⟩ := by
  simp [ScanSettings.from_dbus, getField, lookupKey, tagF, DbusRes.bind,
    hi, hw, ht, hr]

theorem scanResult_err_tagged {m : List (String × WireValue)} {e : MarshalError}
    (h : ScanResult.from_dbus (.propMap m) = .err e) :
    ∃ nm e', nm ∈ ["address", "addr_type", "event_type", "primary_phy",
      "secondary_phy", "advertising_sid", "tx_power", "rssi",
      "periodic_adv_int", "adv_data"] ∧ e = .field nm e' := by
  simp only [ScanResult.from_dbus] at h
  rcases DbusRes.bind_eq_err h with h1 | ⟨a1, ha1, h⟩
  · obtain ⟨e', he⟩ := getField_eq_err h1
    exact ⟨"address", e', by simp, he⟩
  rcases DbusRes.bind_eq_err h with h1 | ⟨a2, ha2, h⟩
  · obtain ⟨e', he⟩ := getField_eq_err h1
    exact ⟨"addr_type", e', by simp, he⟩
  rcases DbusRes.bind_eq_err h with h1 | ⟨a3, ha3, h⟩
  · obtain ⟨e', he⟩ := getField_eq_err h1
    exact ⟨"event_type", e', by simp, he⟩
  rcases DbusRes.bind_eq_err h with h1 | ⟨a4, ha4, h⟩
  · obtain ⟨e', he⟩ := getField_eq_err h1
    exact ⟨"primary_phy", e', by simp, he⟩
  rcases DbusRes.bind_eq_err h with h1 | ⟨a5, ha5, h⟩
  · obtain ⟨e', he⟩ := getField_eq_err h1
    exact ⟨"secondary_phy", e', by simp, he⟩
  rcases DbusRes.bind_eq_err h with h1 | ⟨a6, ha6, h⟩
  · obtain ⟨e', he⟩ := getField_eq_err h1
    exact ⟨"advertising_sid", e', by simp, he⟩
  rcases DbusRes.bind_eq_err h with h1 | ⟨a7, ha7, h⟩
  · obtain ⟨e', he⟩ := getField_eq_err h1
    exact ⟨"tx_power", e', by simp, he⟩
  rcases DbusRes.bind_eq_err h with h1 | ⟨a8, ha8, h⟩
  · obtain ⟨e', he⟩ := getField_eq_err h1
    exact ⟨"rssi", e', by simp, he⟩
  rcases DbusRes.bind_eq_err h with h1 | ⟨a9, ha9, h⟩
  · obtain ⟨e', he⟩ := getField_eq_err h1
    exact ⟨"periodic_adv_int", e', by simp, he⟩
  rcases DbusRes.bind_eq_err h with h1 | ⟨a0, ha0, h⟩
  · obtain ⟨e', he⟩ := getField_eq_err h1
    exact ⟨"adv_data", e', by simp, he⟩
  · simp at h

theorem scanResult_from_fields {w1 w2 w3 w4 w5 w6 w7 w8 w9 w0 : WireValue}
    {address : String} {addr_type event_type primary_phy secondary_phy : Nat}
    {advertising_sid : Nat} {tx_power rssi : Int} {periodic_adv_int : Nat}
    {adv_data : List Nat}
    (h1 : WireValue.asStr w1 = .ok address)
    (h2 : WireValue.asU8 w2 = .ok addr_type)
    (h3 : WireValue.asU16 w3 = .ok event_type)
    (h4 : WireValue.asU8 w4 = .ok primary_phy)
    (h5 : WireValue.asU8 w5 = .ok secondary_phy)
    (h6 : WireValue.asU8 w6 = .ok advertising_sid)
    (h7 : WireValue.asI8 w7 = .ok tx_power)
    (h8 : WireValue.asI8 w8 = .ok rssi)
    (h9 : WireValue.asU16 w9 = .ok periodic_adv_int)
    (h0 : WireValue.asBytes w0 = .ok adv_data) :
    ScanResult.from_dbus
      (.propMap [("address", w1), ("addr_type", w2), ("event_type", w3),
        ("primary_phy", w4), ("secondary_phy", w5), ("advertising_sid", w6),
        ("tx_power", w7), ("rssi", w8), ("periodic_adv_int", w9),
        ("adv_data", w0)]) =
      .ok ⟨address, addr_type, event_type, primary_phy, secondary_phy,
        advertising_sid, tx_power, rssi, periodic_adv_int, adv_data⟩ := by
  simp [ScanResult.from_dbus, getField, lookupKey, tagF, DbusRes.bind,
    h1, h2, h3, h4, h5, h6, h7, h8, h9, h0]

theorem advParams_err_tagged {m : List (String × WireValue)} {e : MarshalError}
    (h : AdvertisingSetParameters.from_dbus (.propMap m) = .err e) :
    ∃ nm e', nm ∈ ["connectable", "scannable", "is_legacy", "is_anonymous",
      "include_tx_power", "primary_phy", "secondary_phy", "interval",
      "tx_power_level", "own_address_type"] ∧ e = .field nm e' := by
  simp only [AdvertisingSetParameters.from_dbus] at h
  rcases DbusRes.bind_eq_err h with h1 | ⟨a1, ha1, h⟩
  · obtain ⟨e', he⟩ := getField_eq_err h1
    exact ⟨"connectable", e', by simp, he⟩
  rcases DbusRes.bind_eq_err h with h1 | ⟨a2, ha2, h⟩
  · obtain ⟨e', he⟩ := getField_eq_err h1
    exact ⟨"scannable", e', by simp, he⟩
  rcases DbusRes.bind_eq_err h with h1 | ⟨a3, ha3, h⟩
  · obtain ⟨e', he⟩ := getField_eq_err h1
    exact ⟨"is_legacy", e', by simp, he⟩
  rcases DbusRes.bind_eq_err h with h1 | ⟨a4, ha4, h⟩
  · obtain ⟨e', he⟩ := getField_eq_err h1
    exact ⟨"is_anonymous", e', by simp, he⟩
  rcases DbusRes.bind_eq_err h with h1 | ⟨a5, ha5, h⟩
  · obtain ⟨e', he⟩ := getField_eq_err h1
    exact ⟨"include_tx_power", e', by simp, he⟩
  rcases DbusRes.bind_eq_err h with h1 | ⟨a6, ha6, h⟩
  · obtain ⟨e', he⟩ := getField_eq_err h1
    exact ⟨"primary_phy", e', by simp, he⟩
  rcases DbusRes.bind_eq_err h with h1 | ⟨a7, ha7, h⟩
  · obtain ⟨e', he⟩ := getField_eq_err h1
    exact ⟨"secondary_phy", e', by simp, he⟩
  rcases DbusRes.bind_eq_err h with h1 | ⟨a8, ha8, h⟩
  · obtain ⟨e', he⟩ := getField_eq_err h1
    exact ⟨"interval", e', by simp, he⟩
  rcases DbusRes.bind_eq_err h with h1 | ⟨a9, ha9, h⟩
  · obtain ⟨e', he⟩ := getField_eq_err h1
    exact ⟨"tx_power_level", e', by simp, he⟩
  rcases DbusRes.bind_eq_err h with h1 | ⟨a0, ha0, h⟩
  · obtain ⟨e', he⟩ := getField_eq_err h1
    exact ⟨"own_address_type", e', by simp, he⟩
  · simp at h

theorem advParams_from_fields {w1 w2 w3 w4 w5 w6 w7 w8 w9 w0 : WireValue}
    {connectable scannable is_legacy is_anonymous include_tx_power : Bool}
    {primary_phy secondary_phy interval tx_power_level own_address_type : Int}
    (h1 : WireValue.asBool w1 = .ok connectable)
    (h2 : WireValue.asBool w2 = .ok scannable)
    (h3 : WireValue.asBool w3 = .ok is_legacy)
    (h4 : WireValue.asBool w4 = .ok is_anonymous)
    (h5 : WireValue.asBool w5 = .ok include_tx_power)
    (h6 : WireValue.asI32 w6 = .ok primary_phy)
    (h7 : WireValue.asI32 w7 = .ok secondary_phy)
    (h8 : WireValue.asI32 w8 = .ok interval)
    (h9 : WireValue.asI32 w9 = .ok tx_power_level)
    (h0 : WireValue.asI32 w0 = .ok own_address_type) :
    AdvertisingSetParameters.from_dbus
      (.propMap [("connectable", w1), ("scannable", w2), ("is_legacy", w3),
        ("is_anonymous", w4), ("include_tx_power", w5), ("primary_phy", w6),
        ("secondary_phy", w7), ("interval", w8), ("tx_power_level", w9),
        ("own_address_type", w0)]) =
      .ok ⟨connectable, scannable, is_legacy, is_anonymous, include_tx_power,
        primary_phy, secondary_phy, interval, tx_power_level, own_address_type⟩ := by
  simp [AdvertisingSetParameters.from_dbus, getField, lookupKey, tagF,
    DbusRes.bind, h1, h2, h3, h4, h5, h6, h7, h8, h9, h0]

theorem advData_err_tagged {m : List (String × WireValue)} {e : MarshalError}
    (h : AdvertiseData.from_dbus (.propMap m) = .err e) :
    ∃ nm e', nm ∈ ["service_uuids", "solicit_uuids", "transport_discovery_data",
      "manufacturer_data", "service_data", "include_tx_power_level",
      "include_device_name"] ∧ e = .field nm e' := by
  simp only [AdvertiseData.from_dbus] at h
  rcases DbusRes.bind_eq_err h with h1 | ⟨a1, ha1, h⟩
  · obtain ⟨e', he⟩ := getListField_eq_err h1
    exact ⟨"service_uuids", e', by simp, he⟩
  rcases DbusRes.bind_eq_err h with h1 | ⟨a2, ha2, h⟩
  · obtain ⟨e', he⟩ := getListField_eq_err h1
    exact ⟨"solicit_uuids", e', by simp, he⟩
  rcases DbusRes.bind_eq_err h with h1 | ⟨a3, ha3, h⟩
  · obtain ⟨e', he⟩ := getListField_eq_err h1
    exact ⟨"transport_discovery_data", e', by simp, he⟩
  rcases DbusRes.bind_eq_err h with h1 | ⟨a4, ha4, h⟩
  · obtain ⟨e', he⟩ := getField_eq_err h1
    exact ⟨"manufacturer_data", e', by simp, he⟩
  rcases DbusRes.bind_eq_err h with h1 | ⟨a5, ha5, h⟩
  · obtain ⟨e', he⟩ := getField_eq_err h1
    exact ⟨"service_data", e', by simp, he⟩
  rcases DbusRes.bind_eq_err h with h1 | ⟨a6, ha6, h⟩
  · obtain ⟨e', he⟩ := getField_eq_err h1
    exact ⟨"include_tx_power_level", e', by simp, he⟩
  rcases DbusRes.bind_eq_err h with h1 | ⟨a7, ha7, h⟩
  · obtain ⟨e', he⟩ := getField_eq_err h1
    exact ⟨"include_device_name", e', by simp, he⟩
  · simp at h

theorem advData_from_fields {ws1 ws2 ws3 : List WireValue} {w4 w5 w6 w7 : WireValue}
    {service_uuids solicit_uuids : List String}
    {transport_discovery_data : List (List Nat)}
    {manufacturer_data : List (Int × List Nat)}
    {service_data : List (String × List Nat)}
    {include_tx_power_level include_device_name : Bool}
    (h1 : mapConv WireValue.asStr ws1 = .ok service_uuids)
    (h2 : mapConv WireValue.asStr ws2 = .ok solicit_uuids)
    (h3 : mapConv WireValue.asBytes ws3 = .ok transport_discovery_data)
    (h4 : WireValue.asDictI w4 = .ok manufacturer_data)
    (h5 : WireValue.asDictS w5 = .ok service_data)
    (h6 : WireValue.asBool w6 = .ok include_tx_power_level)
    (h7 : WireValue.asBool w7 = .ok include_device_name) :
    AdvertiseData.from_dbus
      (.propMap [("service_uuids", .arr ws1), ("solicit_uuids", .arr ws2),
        ("transport_discovery_data", .arr ws3), ("manufacturer_data", w4),
        ("service_data", w5), ("include_tx_power_level", w6),
        ("include_device_name", w7)]) =
      .ok ⟨service_uuids, solicit_uuids, transport_discovery_data,
        manufacturer_data, service_data, include_tx_power_level,
        include_device_name⟩ := by
  simp [AdvertiseData.from_dbus, getField, getListField, lookupKey, tagF,
    DbusRes.bind, h1, h2, h3, h4, h5, h6, h7]

theorem periodicParams_err_tagged {m : List (String × WireValue)} {e : MarshalError}
    (h : PeriodicAdvertisingParameters.from_dbus (.propMap m) = .err e) :
    ∃ nm e', nm ∈ ["include_tx_power", "interval"] ∧ e = .field nm e' := by
  simp only [PeriodicAdvertisingParameters.from_dbus] at h
  rcases DbusRes.bind_eq_err h with h1 | ⟨a1, ha1, h⟩
  · obtain ⟨e', he⟩ := getField_eq_err h1
    exact ⟨"include_tx_power", e', by simp, he⟩
  rcases DbusRes.bind_eq_err h with h1 | ⟨a2, ha2, h⟩
  · obtain ⟨e', he⟩ := getField_eq_err h1
    exact ⟨"interval", e', by simp, he⟩
  · simp at h

theorem periodicParams_from_fields {w1 w2 : WireValue} {include_tx_power : Bool}
    {interval : Int}
    (h1 : WireValue.asBool w1 = .ok include_tx_power)
    (h2 : WireValue.asI32 w2 = .ok interval) :
    PeriodicAdvertisingParameters.from_dbus
      (.propMap [("include_tx_power", w1), ("interval", w2)]) =
      .ok ⟨include_tx_power, interval⟩ := by
  simp [PeriodicAdvertisingParameters.from_dbus, getField, lookupKey, tagF,
    DbusRes.bind, h1, h2]

theorem service_err_tagged {m : List (String × WireValue)} {e : MarshalError}
    (h : BluetoothGattService.from_dbus (.propMap m) = .err e) :
    ∃ nm e', nm ∈ ["uuid", "instance_id", "service_type", "characteristics",
      "included_services"] ∧ e = .field nm e' := by
  rw [BluetoothGattService.from_dbus] at h
  rcases DbusRes.bind_eq_err h with h1 | ⟨a1, ha1, h⟩
  · obtain ⟨e', he⟩ := getField_eq_err h1
    exact ⟨"uuid", e', by simp, he⟩
  rcases DbusRes.bind_eq_err h with h1 | ⟨a2, ha2, h⟩
  · obtain ⟨e', he⟩ := getField_eq_err h1
    exact ⟨"instance_id", e', by simp, he⟩
  rcases DbusRes.bind_eq_err h with h1 | ⟨a3, ha3, h⟩
  · obtain ⟨e', he⟩ := getField_eq_err h1
    exact ⟨"service_type", e', by simp, he⟩
  rcases DbusRes.bind_eq_err h with h1 | ⟨a4, ha4, h⟩
  · obtain ⟨e', he⟩ := getListField_eq_err h1
    exact ⟨"characteristics", e', by simp, he⟩
  rcases DbusRes.bind_eq_err h with h1 | ⟨a5, ha5, h⟩
  · obtain ⟨e', he⟩ := tagF_eq_err h1
    exact ⟨"included_services", e', by simp, he⟩
  · simp at h

theorem service_from_fields {wu wi ws : WireValue} {wcs wss : List WireValue}
    {u : Uuid128Bit} {i s : Int} {cs : List BluetoothGattCharacteristic}
    {ss : List BluetoothGattService}
    (hu : WireValue.asUuid wu = .ok u) (hi : WireValue.asI32 wi = .ok i)
    (hs : WireValue.asI32 ws = .ok s)
    (hcs : mapConv BluetoothGattCharacteristic.from_dbus wcs = .ok cs)
    (hss : BluetoothGattService.listFrom wss = .ok ss) :
    BluetoothGattService.from_dbus
      (.propMap [("uuid", wu), ("instance_id", wi), ("service_type", ws),
        ("characteristics", .arr wcs), ("included_services", .arr wss)]) =
      .ok (.mk u i s cs ss) := by
  rw [BluetoothGattService.from_dbus]
  simp [getField, getListField, lookupKey, tagF, DbusRes.bind,
    hu, hi, hs, hcs, hss]

/- Round-trip of the GATT service tree conversion. -/

theorem mapConv_map {α : Type} {c : WireValue → DbusRes α} {enc : α → WireValue}
    (l : List α) (h : ∀ x ∈ l, c (enc x) = .ok x) :
    mapConv c (l.map enc) = .ok l := by
  induction l with
  | nil => rfl
  | cons x xs ih =>
    simp only [List.map_cons, mapConv, h x (by simp),
      ih (fun y hy => h y (by simp [hy])), DbusRes.bind]

theorem uuid_from_to (u : Uuid128Bit) : Uuid128Bit.from_dbus u.val = .ok u := by
  obtain ⟨l, hl⟩ := u
  simp [Uuid128Bit.from_dbus, hl]

theorem descriptor_from_to (d : BluetoothGattDescriptor) :
    BluetoothGattDescriptor.from_dbus d.to_dbus = .ok d := by
  obtain ⟨u, i, p⟩ := d
  exact descriptor_from_fields (by simp [WireValue.asUuid, uuid_from_to]) rfl rfl

theorem characteristic_from_to (c : BluetoothGattCharacteristic) :
    BluetoothGattCharacteristic.from_dbus c.to_dbus = .ok c := by
  obtain ⟨u, i, pr, pe, k, wt, ds⟩ := c
  exact characteristic_from_fields (by simp [WireValue.asUuid, uuid_from_to])
    rfl rfl rfl rfl
    (by simp [WireValue.asEnum, gattWriteType_roundtrip])
    (mapConv_map ds (fun x _ => descriptor_from_to x))

theorem listFrom_listTo (l : List BluetoothGattService)
    (h : ∀ x ∈ l, BluetoothGattService.from_dbus (BluetoothGattService.to_dbus x) = .ok x) :
    BluetoothGattService.listFrom (BluetoothGattService.listTo l) = .ok l := by
  induction l with
  | nil => rw [BluetoothGattService.listTo, BluetoothGattService.listFrom]
  | cons x xs ih =>
    rw [BluetoothGattService.listTo, BluetoothGattService.listFrom]
    simp only [h x (by simp), ih (fun y hy => h y (by simp [hy])), DbusRes.bind]

theorem service_from_to (s : BluetoothGattService) :
    BluetoothGattService.from_dbus (BluetoothGattService.to_dbus s) = .ok s := by
  have main : ∀ (n : Nat) (s : BluetoothGattService), sizeOf s ≤ n →
      BluetoothGattService.from_dbus (BluetoothGattService.to_dbus s) = .ok s := by
    intro n
    induction n with
    | zero =>
      intro s hs
      cases s with
      | mk u i t cs ss => simp at hs
    | succ n ih =>
      intro s hs
      cases s with
      | mk u i t cs ss =>
        have hsz : sizeOf ss ≤ n := by
          simp at hs
          omega
        have hincl : BluetoothGattService.listFrom (BluetoothGattService.listTo ss) = .ok ss :=
          listFrom_listTo ss (fun x hx =>
            ih x (by
              have := List.sizeOf_lt_of_mem hx
              omega))
        rw [BluetoothGattService.to_dbus]
        exact service_from_fields (by simp [WireValue.asUuid, uuid_from_to]) rfl rfl
          (mapConv_map cs (fun x _ => characteristic_from_to x)) hincl
  exact main (sizeOf s) s (Nat.le_refl _)

/-- In the BluetoothGattService binding, a failing field aborts the whole
conversion and surfaces that field's error tagged with that field's
name (earlier fields having converted). -/
theorem service_field_aborts :
    (∀ (wu wi ws : WireValue) (wcs wss : List WireValue) (e : MarshalError),
        WireValue.asUuid wu = .err e →
        BluetoothGattService.from_dbus
          (.propMap [("uuid", wu), ("instance_id", wi), ("service_type", ws), ("characteristics", .arr wcs), ("included_services", .arr wss)]) =
          .err (.field "uuid" e)) ∧
    (∀ (wu wi ws : WireValue) (wcs wss : List WireValue) (u : Uuid128Bit) (e : MarshalError),
        WireValue.asUuid wu = .ok u →
        WireValue.asI32 wi = .err e →
        BluetoothGattService.from_dbus
          (.propMap [("uuid", wu), ("instance_id", wi), ("service_type", ws), ("characteristics", .arr wcs), ("included_services", .arr wss)]) =
          .err (.field "instance_id" e)) ∧
    (∀ (wu wi ws : WireValue) (wcs wss : List WireValue) (u : Uuid128Bit) (i : Int) (e : MarshalError),
        WireValue.asUuid wu = .ok u →
        WireValue.asI32 wi = .ok i →
        WireValue.asI32 ws = .err e →
        BluetoothGattService.from_dbus
          (.propMap [("uuid", wu), ("instance_id", wi), ("service_type", ws), ("characteristics", .arr wcs), ("included_services", .arr wss)]) =
          .err (.field "service_type" e)) ∧
    (∀ (wu wi ws : WireValue) (wcs wss : List WireValue) (u : Uuid128Bit) (i : Int) (s : Int) (e : MarshalError),
        WireValue.asUuid wu = .ok u →
        WireValue.asI32 wi = .ok i →
        WireValue.asI32 ws = .ok s →
        mapConv BluetoothGattCharacteristic.from_dbus wcs = .err e →
        BluetoothGattService.from_dbus
          (.propMap [("uuid", wu), ("instance_id", wi), ("service_type", ws), ("characteristics", .arr wcs), ("included_services", .arr wss)]) =
          .err (.field "characteristics" e)) ∧
    (∀ (wu wi ws : WireValue) (wcs wss : List WireValue) (u : Uuid128Bit) (i : Int) (s : Int) (cs : List BluetoothGattCharacteristic) (e : MarshalError),
        WireValue.asUuid wu = .ok u →
        WireValue.asI32 wi = .ok i →
        WireValue.asI32 ws = .ok s →
        mapConv BluetoothGattCharacteristic.from_dbus wcs = .ok cs →
        BluetoothGattService.listFrom wss = .err e →
        BluetoothGattService.from_dbus
          (.propMap [("uuid", wu), ("instance_id", wi), ("service_type", ws), ("characteristics", .arr wcs), ("included_services", .arr wss)]) =
          .err (.field "included_services" e)) := by
  refine ⟨?_, ?_, ?_, ?_, ?_⟩ <;>
    (intros; rw [BluetoothGattService.from_dbus];
      simp_all [getField, getListField, lookupKey, tagF, DbusRes.bind])

/-- In the BluetoothGattCharacteristic binding, a failing field aborts the whole
conversion and surfaces that field's error tagged with that field's
name (earlier fields having converted). -/
theorem characteristic_field_aborts :
    (∀ (wu wi wpr wpe wk wwt : WireValue) (wds : List WireValue) (e : MarshalError),
        WireValue.asUuid wu = .err e →
        BluetoothGattCharacteristic.from_dbus
          (.propMap [("uuid", wu), ("instance_id", wi), ("properties", wpr), ("permissions", wpe), ("key_size", wk), ("write_type", wwt), ("descriptors", .arr wds)]) =
          .err (.field "uuid" e)) ∧
    (∀ (wu wi wpr wpe wk wwt : WireValue) (wds : List WireValue) (u : Uuid128Bit) (e : MarshalError),
        WireValue.asUuid wu = .ok u →
        WireValue.asI32 wi = .err e →
        BluetoothGattCharacteristic.from_dbus
          (.propMap [("uuid", wu), ("instance_id", wi), ("properties", wpr), ("permissions", wpe), ("key_size", wk), ("write_type", wwt), ("descriptors", .arr wds)]) =
          .err (.field "instance_id" e)) ∧
    (∀ (wu wi wpr wpe wk wwt : WireValue) (wds : List WireValue) (u : Uuid128Bit) (i : Int) (e : MarshalError),
        WireValue.asUuid wu = .ok u →
        WireValue.asI32 wi = .ok i →
        WireValue.asI32 wpr = .err e →
        BluetoothGattCharacteristic.from_dbus
          (.propMap [("uuid", wu), ("instance_id", wi), ("properties", wpr), ("permissions", wpe), ("key_size", wk), ("write_type", wwt), ("descriptors", .arr wds)]) =
          .err (.field "properties" e)) ∧
    (∀ (wu wi wpr wpe wk wwt : WireValue) (wds : List WireValue) (u : Uuid128Bit) (i : Int) (pr : Int) (e : MarshalError),
        WireValue.asUuid wu = .ok u →
        WireValue.asI32 wi = .ok i →
        WireValue.asI32 wpr = .ok pr →
        WireValue.asI32 wpe = .err e →
        BluetoothGattCharacteristic.from_dbus
          (.propMap [("uuid", wu), ("instance_id", wi), ("properties", wpr), ("permissions", wpe), ("key_size", wk), ("write_type", wwt), ("descriptors", .arr wds)]) =
          .err (.field "permissions" e)) ∧
    (∀ (wu wi wpr wpe wk wwt : WireValue) (wds : List WireValue) (u : Uuid128Bit) (i : Int) (pr : Int) (pe : Int) (e : MarshalError),
        WireValue.asUuid wu = .ok u →
        WireValue.asI32 wi = .ok i →
        WireValue.asI32 wpr = .ok pr →
        WireValue.asI32 wpe = .ok pe →
        WireValue.asI32 wk = .err e →
        BluetoothGattCharacteristic.from_dbus
          (.propMap [("uuid", wu), ("instance_id", wi), ("properties", wpr), ("permissions", wpe), ("key_size", wk), ("write_type", wwt), ("descriptors", .arr wds)]) =
          .err (.field "key_size" e)) ∧
    (∀ (wu wi wpr wpe wk wwt : WireValue) (wds : List WireValue) (u : Uuid128Bit) (i : Int) (pr : Int) (pe : Int) (k : Int) (e : MarshalError),
        WireValue.asUuid wu = .ok u →
        WireValue.asI32 wi = .ok i →
        WireValue.asI32 wpr = .ok pr →
        WireValue.asI32 wpe = .ok pe →
        WireValue.asI32 wk = .ok k →
        WireValue.asEnum gattWriteTypeCodec wwt = .err e →
        BluetoothGattCharacteristic.from_dbus
          (.propMap [("uuid", wu), ("instance_id", wi), ("properties", wpr), ("permissions", wpe), ("key_size", wk), ("write_type", wwt), ("descriptors", .arr wds)]) =
          .err (.field "write_type" e)) ∧
    (∀ (wu wi wpr wpe wk wwt : WireValue) (wds : List WireValue) (u : Uuid128Bit) (i : Int) (pr : Int) (pe : Int) (k : Int) (wt : GattWriteType) (e : MarshalError),
        WireValue.asUuid wu = .ok u →
        WireValue.asI32 wi = .ok i →
        WireValue.asI32 wpr = .ok pr →
        WireValue.asI32 wpe = .ok pe →
        WireValue.asI32 wk = .ok k →
        WireValue.asEnum gattWriteTypeCodec wwt = .ok wt →
        mapConv BluetoothGattDescriptor.from_dbus wds = .err e →
        BluetoothGattCharacteristic.from_dbus
          (.propMap [("uuid", wu), ("instance_id", wi), ("properties", wpr), ("permissions", wpe), ("key_size", wk), ("write_type", wwt), ("descriptors", .arr wds)]) =
          .err (.field "descriptors" e)) := by
  refine ⟨?_, ?_, ?_, ?_, ?_, ?_, ?_⟩ <;>
    (intros; simp_all [BluetoothGattCharacteristic.from_dbus, getField, getListField,
      lookupKey, tagF, DbusRes.bind])

/-- In the BluetoothGattDescriptor binding, a failing field aborts the whole
conversion and surfaces that field's error tagged with that field's
name (earlier fields having converted). -/
theorem descriptor_field_aborts :
    (∀ (wu wi wp : WireValue) (e : MarshalError),
        WireValue.asUuid wu = .err e →
        BluetoothGattDescriptor.from_dbus
          (.propMap [("uuid", wu), ("instance_id", wi), ("permissions", wp)]) =
          .err (.field "uuid" e)) ∧
    (∀ (wu wi wp : WireValue) (u : Uuid128Bit) (e : MarshalError),
        WireValue.asUuid wu = .ok u →
        WireValue.asI32 wi = .err e →
        BluetoothGattDescriptor.from_dbus
          (.propMap [("uuid", wu), ("instance_id", wi), ("permissions", wp)]) =
          .err (.field "instance_id" e)) ∧
    (∀ (wu wi wp : WireValue) (u : Uuid128Bit) (i : Int) (e : MarshalError),
        WireValue.asUuid wu = .ok u →
        WireValue.asI32 wi = .ok i →
        WireValue.asI32 wp = .err e →
        BluetoothGattDescriptor.from_dbus
          (.propMap [("uuid", wu), ("instance_id", wi), ("permissions", wp)]) =
          .err (.field "permissions" e)) := by
  refine ⟨?_, ?_, ?_⟩ <;>
    (intros; simp_all [BluetoothGattDescriptor.from_dbus, getField, getListField,
      lookupKey, tagF, DbusRes.bind])

/-- In the ScanSettings binding, a failing field aborts the whole
conversion and surfaces that field's error tagged with that field's
name (earlier fields having converted). -/
theorem scanSettings_field_aborts :
    (∀ (wi ww wt wr : WireValue) (e : MarshalError),
        WireValue.asI32 wi = .err e →
        ScanSettings.from_dbus
          (.propMap [("interval", wi), ("window", ww), ("scan_type", wt), ("rssi_settings", wr)]) =
          .err (.field "interval" e)) ∧
    (∀ (wi ww wt wr : WireValue) (i : Int) (e : MarshalError),
        WireValue.asI32 wi = .ok i →
        WireValue.asI32 ww = .err e →
        ScanSettings.from_dbus
          (.propMap [("interval", wi), ("window", ww), ("scan_type", wt), ("rssi_settings", wr)]) =
          .err (.field "window" e)) ∧
    (∀ (wi ww wt wr : WireValue) (i : Int) (w : Int) (e : MarshalError),
        WireValue.asI32 wi = .ok i →
        WireValue.asI32 ww = .ok w →
        WireValue.asEnum scanTypeCodec wt = .err e →
        ScanSettings.from_dbus
          (.propMap [("interval", wi), ("window", ww), ("scan_type", wt), ("rssi_settings", wr)]) =
          .err (.field "scan_type" e)) ∧
    (∀ (wi ww wt wr : WireValue) (i : Int) (w : Int) (t : ScanType) (e : MarshalError),
        WireValue.asI32 wi = .ok i →
        WireValue.asI32 ww = .ok w →
        WireValue.asEnum scanTypeCodec wt = .ok t →
        RSSISettings.from_dbus wr = .err e →
        ScanSettings.from_dbus
          (.propMap [("interval", wi), ("window", ww), ("scan_type", wt), ("rssi_settings", wr)]) =
          .err (.field "rssi_settings" e)) := by
  refine ⟨?_, ?_, ?_, ?_⟩ <;>
    (intros; simp_all [ScanSettings.from_dbus, getField, getListField,
      lookupKey, tagF, DbusRes.bind])

/-- In the ScanResult binding, a failing field aborts the whole
conversion and surfaces that field's error tagged with that field's
name (earlier fields having converted). -/
theorem scanResult_field_aborts :
    (∀ (w1 w2 w3 w4 w5 w6 w7 w8 w9 w0 : WireValue) (e : MarshalError),
        WireValue.asStr w1 = .err e →
        ScanResult.from_dbus
          (.propMap [("address", w1), ("addr_type", w2), ("event_type", w3), ("primary_phy", w4), ("secondary_phy", w5), ("advertising_sid", w6), ("tx_power", w7), ("rssi", w8), ("periodic_adv_int", w9), ("adv_data", w0)]) =
          .err (.field "address" e)) ∧
    (∀ (w1 w2 w3 w4 w5 w6 w7 w8 w9 w0 : WireValue) (address : String) (e : MarshalError),
        WireValue.asStr w1 = .ok address →
        WireValue.asU8 w2 = .err e →
        ScanResult.from_dbus
          (.propMap [("address", w1), ("addr_type", w2), ("event_type", w3), ("primary_phy", w4), ("secondary_phy", w5), ("advertising_sid", w6), ("tx_power", w7), ("rssi", w8), ("periodic_adv_int", w9), ("adv_data", w0)]) =
          .err (.field "addr_type" e)) ∧
    (∀ (w1 w2 w3 w4 w5 w6 w7 w8 w9 w0 : WireValue) (address : String) (addr_type : Nat) (e : MarshalError),
        WireValue.asStr w1 = .ok address →
        WireValue.asU8 w2 = .ok addr_type →
        WireValue.asU16 w3 = .err e →
        ScanResult.from_dbus
          (.propMap [("address", w1), ("addr_type", w2), ("event_type", w3), ("primary_phy", w4), ("secondary_phy", w5), ("advertising_sid", w6), ("tx_power", w7), ("rssi", w8), ("periodic_adv_int", w9), ("adv_data", w0)]) =
          .err (.field "event_type" e)) ∧
    (∀ (w1 w2 w3 w4 w5 w6 w7 w8 w9 w0 : WireValue) (address : String) (addr_type : Nat) (event_type : Nat) (e : MarshalError),
        WireValue.asStr w1 = .ok address →
        WireValue.asU8 w2 = .ok addr_type →
        WireValue.asU16 w3 = .ok event_type →
        WireValue.asU8 w4 = .err e →
        ScanResult.from_dbus
          (.propMap [("address", w1), ("addr_type", w2), ("event_type", w3), ("primary_phy", w4), ("secondary_phy", w5), ("advertising_sid", w6), ("tx_power", w7), ("rssi", w8), ("periodic_adv_int", w9), ("adv_data", w0)]) =
          .err (.field "primary_phy" e)) ∧
    (∀ (w1 w2 w3 w4 w5 w6 w7 w8 w9 w0 : WireValue) (address : String) (addr_type : Nat) (event_type : Nat) (primary_phy : Nat) (e : MarshalError),
        WireValue.asStr w1 = .ok address →
        WireValue.asU8 w2 = .ok addr_type →
        WireValue.asU16 w3 = .ok event_type →
        WireValue.asU8 w4 = .ok primary_phy →
        WireValue.asU8 w5 = .err e →
        ScanResult.from_dbus
          (.propMap [("address", w1), ("addr_type", w2), ("event_type", w3), ("primary_phy", w4), ("secondary_phy", w5), ("advertising_sid", w6), ("tx_power", w7), ("rssi", w8), ("periodic_adv_int", w9), ("adv_data", w0)]) =
          .err (.field "secondary_phy" e)) ∧
    (∀ (w1 w2 w3 w4 w5 w6 w7 w8 w9 w0 : WireValue) (address : String) (addr_type : Nat) (event_type : Nat) (primary_phy : Nat) (secondary_phy : Nat) (e : MarshalError),
        WireValue.asStr w1 = .ok address →
        WireValue.asU8 w2 = .ok addr_type →
        WireValue.asU16 w3 = .ok event_type →
        WireValue.asU8 w4 = .ok primary_phy →
        WireValue.asU8 w5 = .ok secondary_phy →
        WireValue.asU8 w6 = .err e →
        ScanResult.from_dbus
          (.propMap [("address", w1), ("addr_type", w2), ("event_type", w3), ("primary_phy", w4), ("secondary_phy", w5), ("advertising_sid", w6), ("tx_power", w7), ("rssi", w8), ("periodic_adv_int", w9), ("adv_data", w0)]) =
          .err (.field "advertising_sid" e)) ∧
    (∀ (w1 w2 w3 w4 w5 w6 w7 w8 w9 w0 : WireValue) (address : String) (addr_type : Nat) (event_type : Nat) (primary_phy : Nat) (secondary_phy : Nat) (advertising_sid : Nat) (e : MarshalError),
        WireValue.asStr w1 = .ok address →
        WireValue.asU8 w2 = .ok addr_type →
        WireValue.asU16 w3 = .ok event_type →
        WireValue.asU8 w4 = .ok primary_phy →
        WireValue.asU8 w5 = .ok secondary_phy →
        WireValue.asU8 w6 = .ok advertising_sid →
        WireValue.asI8 w7 = .err e →
        ScanResult.from_dbus
          (.propMap [("address", w1), ("addr_type", w2), ("event_type", w3), ("primary_phy", w4), ("secondary_phy", w5), ("advertising_sid", w6), ("tx_power", w7), ("rssi", w8), ("periodic_adv_int", w9), ("adv_data", w0)]) =
          .err (.field "tx_power" e)) ∧
    (∀ (w1 w2 w3 w4 w5 w6 w7 w8 w9 w0 : WireValue) (address : String) (addr_type : Nat) (event_type : Nat) (primary_phy : Nat) (secondary_phy : Nat) (advertising_sid : Nat) (tx_power : Int) (e : MarshalError),
        WireValue.asStr w1 = .ok address →
        WireValue.asU8 w2 = .ok addr_type →
        WireValue.asU16 w3 = .ok event_type →
        WireValue.asU8 w4 = .ok primary_phy →
        WireValue.asU8 w5 = .ok secondary_phy →
        WireValue.asU8 w6 = .ok advertising_sid →
        WireValue.asI8 w7 = .ok tx_power →
        WireValue.asI8 w8 = .err e →
        ScanResult.from_dbus
          (.propMap [("address", w1), ("addr_type", w2), ("event_type", w3), ("primary_phy", w4), ("secondary_phy", w5), ("advertising_sid", w6), ("tx_power", w7), ("rssi", w8), ("periodic_adv_int", w9), ("adv_data", w0)]) =
          .err (.field "rssi" e)) ∧
    (∀ (w1 w2 w3 w4 w5 w6 w7 w8 w9 w0 : WireValue) (address : String) (addr_type : Nat) (event_type : Nat) (primary_phy : Nat) (secondary_phy : Nat) (advertising_sid : Nat) (tx_power : Int) (rssi : Int) (e : MarshalError),
        WireValue.asStr w1 = .ok address →
        WireValue.asU8 w2 = .ok addr_type →
        WireValue.asU16 w3 = .ok event_type →
        WireValue.asU8 w4 = .ok primary_phy →
        WireValue.asU8 w5 = .ok secondary_phy →
        WireValue.asU8 w6 = .ok advertising_sid →
        WireValue.asI8 w7 = .ok tx_power →
        WireValue.asI8 w8 = .ok rssi →
        WireValue.asU16 w9 = .err e →
        ScanResult.from_dbus
          (.propMap [("address", w1), ("addr_type", w2), ("event_type", w3), ("primary_phy", w4), ("secondary_phy", w5), ("advertising_sid", w6), ("tx_power", w7), ("rssi", w8), ("periodic_adv_int", w9), ("adv_data", w0)]) =
          .err (.field "periodic_adv_int" e)) ∧
    (∀ (w1 w2 w3 w4 w5 w6 w7 w8 w9 w0 : WireValue) (address : String) (addr_type : Nat) (event_type : Nat) (primary_phy : Nat) (secondary_phy : Nat) (advertising_sid : Nat) (tx_power : Int) (rssi : Int) (periodic_adv_int : Nat) (e : MarshalError),
        WireValue.asStr w1 = .ok address →
        WireValue.asU8 w2 = .ok addr_type →
        WireValue.asU16 w3 = .ok event_type →
        WireValue.asU8 w4 = .ok primary_phy →
        WireValue.asU8 w5 = .ok secondary_phy →
        WireValue.asU8 w6 = .ok advertising_sid →
        WireValue.asI8 w7 = .ok tx_power →
        WireValue.asI8 w8 = .ok rssi →
        WireValue.asU16 w9 = .ok periodic_adv_int →
        WireValue.asBytes w0 = .err e →
        ScanResult.from_dbus
          (.propMap [("address", w1), ("addr_type", w2), ("event_type", w3), ("primary_phy", w4), ("secondary_phy", w5), ("advertising_sid", w6), ("tx_power", w7), ("rssi", w8), ("periodic_adv_int", w9), ("adv_data", w0)]) =
          .err (.field "adv_data" e)) := by
  refine ⟨?_, ?_, ?_, ?_, ?_, ?_, ?_, ?_, ?_, ?_⟩ <;>
    (intros; simp_all [ScanResult.from_dbus, getField, getListField,
      lookupKey, tagF, DbusRes.bind])

/-- In the AdvertisingSetParameters binding, a failing field aborts the whole
conversion and surfaces that field's error tagged with that field's
name (earlier fields having converted). -/
theorem advParams_field_aborts :
    (∀ (w1 w2 w3 w4 w5 w6 w7 w8 w9 w0 : WireValue) (e : MarshalError),
        WireValue.asBool w1 = .err e →
        AdvertisingSetParameters.from_dbus
          (.propMap [("connectable", w1), ("scannable", w2), ("is_legacy", w3), ("is_anonymous", w4), ("include_tx_power", w5), ("primary_phy", w6), ("secondary_phy", w7), ("interval", w8), ("tx_power_level", w9), ("own_address_type", w0)]) =
          .err (.field "connectable" e)) ∧
    (∀ (w1 w2 w3 w4 w5 w6 w7 w8 w9 w0 : WireValue) (connectable : Bool) (e : MarshalError),
        WireValue.asBool w1 = .ok connectable →
        WireValue.asBool w2 = .err e →
        AdvertisingSetParameters.from_dbus
          (.propMap [("connectable", w1), ("scannable", w2), ("is_legacy", w3), ("is_anonymous", w4), ("include_tx_power", w5), ("primary_phy", w6), ("secondary_phy", w7), ("interval", w8), ("tx_power_level", w9), ("own_address_type", w0)]) =
          .err (.field "scannable" e)) ∧
    (∀ (w1 w2 w3 w4 w5 w6 w7 w8 w9 w0 : WireValue) (connectable : Bool) (scannable : Bool) (e : MarshalError),
        WireValue.asBool w1 = .ok connectable →
        WireValue.asBool w2 = .ok scannable →
        WireValue.asBool w3 = .err e →
        AdvertisingSetParameters.from_dbus
          (.propMap [("connectable", w1), ("scannable", w2), ("is_legacy", w3), ("is_anonymous", w4), ("include_tx_power", w5), ("primary_phy", w6), ("secondary_phy", w7), ("interval", w8), ("tx_power_level", w9), ("own_address_type", w0)]) =
          .err (.field "is_legacy" e)) ∧
    (∀ (w1 w2 w3 w4 w5 w6 w7 w8 w9 w0 : WireValue) (connectable : Bool) (scannable : Bool) (is_legacy : Bool) (e : MarshalError),
        WireValue.asBool w1 = .ok connectable →
        WireValue.asBool w2 = .ok scannable →
        WireValue.asBool w3 = .ok is_legacy →
        WireValue.asBool w4 = .err e →
        AdvertisingSetParameters.from_dbus
          (.propMap [("connectable", w1), ("scannable", w2), ("is_legacy", w3), ("is_anonymous", w4), ("include_tx_power", w5), ("primary_phy", w6), ("secondary_phy", w7), ("interval", w8), ("tx_power_level", w9), ("own_address_type", w0)]) =
          .err (.field "is_anonymous" e)) ∧
    (∀ (w1 w2 w3 w4 w5 w6 w7 w8 w9 w0 : WireValue) (connectable : Bool) (scannable : Bool) (is_legacy : Bool) (is_anonymous : Bool) (e : MarshalError),
        WireValue.asBool w1 = .ok connectable →
        WireValue.asBool w2 = .ok scannable →
        WireValue.asBool w3 = .ok is_legacy →
        WireValue.asBool w4 = .ok is_anonymous →
        WireValue.asBool w5 = .err e →
        AdvertisingSetParameters.from_dbus
          (.propMap [("connectable", w1), ("scannable", w2), ("is_legacy", w3), ("is_anonymous", w4), ("include_tx_power", w5), ("primary_phy", w6), ("secondary_phy", w7), ("interval", w8), ("tx_power_level", w9), ("own_address_type", w0)]) =
          .err (.field "include_tx_power" e)) ∧
    (∀ (w1 w2 w3 w4 w5 w6 w7 w8 w9 w0 : WireValue) (connectable : Bool) (scannable : Bool) (is_legacy : Bool) (is_anonymous : Bool) (include_tx_power : Bool) (e : MarshalError),
        WireValue.asBool w1 = .ok connectable →
        WireValue.asBool w2 = .ok scannable →
        WireValue.asBool w3 = .ok is_legacy →
        WireValue.asBool w4 = .ok is_anonymous →
        WireValue.asBool w5 = .ok include_tx_power →
        WireValue.asI32 w6 = .err e →
        AdvertisingSetParameters.from_dbus
          (.propMap [("connectable", w1), ("scannable", w2), ("is_legacy", w3), ("is_anonymous", w4), ("include_tx_power", w5), ("primary_phy", w6), ("secondary_phy", w7), ("interval", w8), ("tx_power_level", w9), ("own_address_type", w0)]) =
          .err (.field "primary_phy" e)) ∧
    (∀ (w1 w2 w3 w4 w5 w6 w7 w8 w9 w0 : WireValue) (connectable : Bool) (scannable : Bool) (is_legacy : Bool) (is_anonymous : Bool) (include_tx_power : Bool) (primary_phy : Int) (e : MarshalError),
        WireValue.asBool w1 = .ok connectable →
        WireValue.asBool w2 = .ok scannable →
        WireValue.asBool w3 = .ok is_legacy →
        WireValue.asBool w4 = .ok is_anonymous →
        WireValue.asBool w5 = .ok include_tx_power →
        WireValue.asI32 w6 = .ok primary_phy →
        WireValue.asI32 w7 = .err e →
        AdvertisingSetParameters.from_dbus
          (.propMap [("connectable", w1), ("scannable", w2), ("is_legacy", w3), ("is_anonymous", w4), ("include_tx_power", w5), ("primary_phy", w6), ("secondary_phy", w7), ("interval", w8), ("tx_power_level", w9), ("own_address_type", w0)]) =
          .err (.field "secondary_phy" e)) ∧
    (∀ (w1 w2 w3 w4 w5 w6 w7 w8 w9 w0 : WireValue) (connectable : Bool) (scannable : Bool) (is_legacy : Bool) (is_anonymous : Bool) (include_tx_power : Bool) (primary_phy : Int) (secondary_phy : Int) (e : MarshalError),
        WireValue.asBool w1 = .ok connectable →
        WireValue.asBool w2 = .ok scannable →
        WireValue.asBool w3 = .ok is_legacy →
        WireValue.asBool w4 = .ok is_anonymous →
        WireValue.asBool w5 = .ok include_tx_power →
        WireValue.asI32 w6 = .ok primary_phy →
        WireValue.asI32 w7 = .ok secondary_phy →
        WireValue.asI32 w8 = .err e →
        AdvertisingSetParameters.from_dbus
          (.propMap [("connectable", w1), ("scannable", w2), ("is_legacy", w3), ("is_anonymous", w4), ("include_tx_power", w5), ("primary_phy", w6), ("secondary_phy", w7), ("interval", w8), ("tx_power_level", w9), ("own_address_type", w0)]) =
          .err (.field "interval" e)) ∧
    (∀ (w1 w2 w3 w4 w5 w6 w7 w8 w9 w0 : WireValue) (connectable : Bool) (scannable : Bool) (is_legacy : Bool) (is_anonymous : Bool) (include_tx_power : Bool) (primary_phy : Int) (secondary_phy : Int) (interval : Int) (e : MarshalError),
        WireValue.asBool w1 = .ok connectable →
        WireValue.asBool w2 = .ok scannable →
        WireValue.asBool w3 = .ok is_legacy →
        WireValue.asBool w4 = .ok is_anonymous →
        WireValue.asBool w5 = .ok include_tx_power →
        WireValue.asI32 w6 = .ok primary_phy →
        WireValue.asI32 w7 = .ok secondary_phy →
        WireValue.asI32 w8 = .ok interval →
        WireValue.asI32 w9 = .err e →
        AdvertisingSetParameters.from_dbus
          (.propMap [("connectable", w1), ("scannable", w2), ("is_legacy", w3), ("is_anonymous", w4), ("include_tx_power", w5), ("primary_phy", w6), ("secondary_phy", w7), ("interval", w8), ("tx_power_level", w9), ("own_address_type", w0)]) =
          .err (.field "tx_power_level" e)) ∧
    (∀ (w1 w2 w3 w4 w5 w6 w7 w8 w9 w0 : WireValue) (connectable : Bool) (scannable : Bool) (is_legacy : Bool) (is_anonymous : Bool) (include_tx_power : Bool) (primary_phy : Int) (secondary_phy : Int) (interval : Int) (tx_power_level : Int) (e : MarshalError),
        WireValue.asBool w1 = .ok connectable →
        WireValue.asBool w2 = .ok scannable →
        WireValue.asBool w3 = .ok is_legacy →
        WireValue.asBool w4 = .ok is_anonymous →
        WireValue.asBool w5 = .ok include_tx_power →
        WireValue.asI32 w6 = .ok primary_phy →
        WireValue.asI32 w7 = .ok secondary_phy →
        WireValue.asI32 w8 = .ok interval →
        WireValue.asI32 w9 = .ok tx_power_level →
        WireValue.asI32 w0 = .err e →
        AdvertisingSetParameters.from_dbus
          (.propMap [("connectable", w1), ("scannable", w2), ("is_legacy", w3), ("is_anonymous", w4), ("include_tx_power", w5), ("primary_phy", w6), ("secondary_phy", w7), ("interval", w8), ("tx_power_level", w9), ("own_address_type", w0)]) =
          .err (.field "own_address_type" e)) := by
  refine ⟨?_, ?_, ?_, ?_, ?_, ?_, ?_, ?_, ?_, ?_⟩ <;>
    (intros; simp_all [AdvertisingSetParameters.from_dbus, getField, getListField,
      lookupKey, tagF, DbusRes.bind])

/-- In the AdvertiseData binding, a failing field aborts the whole
conversion and surfaces that field's error tagged with that field's
name (earlier fields having converted). -/
theorem advData_field_aborts :
    (∀ (w4 w5 w6 w7 : WireValue) (ws1 ws2 ws3 : List WireValue) (e : MarshalError),
        mapConv WireValue.asStr ws1 = .err e →
        AdvertiseData.from_dbus
          (.propMap [("service_uuids", .arr ws1), ("solicit_uuids", .arr ws2), ("transport_discovery_data", .arr ws3), ("manufacturer_data", w4), ("service_data", w5), ("include_tx_power_level", w6), ("include_device_name", w7)]) =
          .err (.field "service_uuids" e)) ∧
    (∀ (w4 w5 w6 w7 : WireValue) (ws1 ws2 ws3 : List WireValue) (service_uuids : List String) (e : MarshalError),
        mapConv WireValue.asStr ws1 = .ok service_uuids →
        mapConv WireValue.asStr ws2 = .err e →
        AdvertiseData.from_dbus
          (.propMap [("service_uuids", .arr ws1), ("solicit_uuids", .arr ws2), ("transport_discovery_data", .arr ws3), ("manufacturer_data", w4), ("service_data", w5), ("include_tx_power_level", w6), ("include_device_name", w7)]) =
          .err (.field "solicit_uuids" e)) ∧
    (∀ (w4 w5 w6 w7 : WireValue) (ws1 ws2 ws3 : List WireValue) (service_uuids : List String) (solicit_uuids : List String) (e : MarshalError),
        mapConv WireValue.asStr ws1 = .ok service_uuids →
        mapConv WireValue.asStr ws2 = .ok solicit_uuids →
        mapConv WireValue.asBytes ws3 = .err e →
        AdvertiseData.from_dbus
          (.propMap [("service_uuids", .arr ws1), ("solicit_uuids", .arr ws2), ("transport_discovery_data", .arr ws3), ("manufacturer_data", w4), ("service_data", w5), ("include_tx_power_level", w6), ("include_device_name", w7)]) =
          .err (.field "transport_discovery_data" e)) ∧
    (∀ (w4 w5 w6 w7 : WireValue) (ws1 ws2 ws3 : List WireValue) (service_uuids : List String) (solicit_uuids : List String) (transport_discovery_data : List (List Nat)) (e : MarshalError),
        mapConv WireValue.asStr ws1 = .ok service_uuids →
        mapConv WireValue.asStr ws2 = .ok solicit_uuids →
        mapConv WireValue.asBytes ws3 = .ok transport_discovery_data →
        WireValue.asDictI w4 = .err e →
        AdvertiseData.from_dbus
          (.propMap [("service_uuids", .arr ws1), ("solicit_uuids", .arr ws2), ("transport_discovery_data", .arr ws3), ("manufacturer_data", w4), ("service_data", w5), ("include_tx_power_level", w6), ("include_device_name", w7)]) =
          .err (.field "manufacturer_data" e)) ∧
    (∀ (w4 w5 w6 w7 : WireValue) (ws1 ws2 ws3 : List WireValue) (service_uuids : List String) (solicit_uuids : List String) (transport_discovery_data : List (List Nat)) (manufacturer_data : List (Int × List Nat)) (e : MarshalError),
        mapConv WireValue.asStr ws1 = .ok service_uuids →
        mapConv WireValue.asStr ws2 = .ok solicit_uuids →
        mapConv WireValue.asBytes ws3 = .ok transport_discovery_data →
        WireValue.asDictI w4 = .ok manufacturer_data →
        WireValue.asDictS w5 = .err e →
        AdvertiseData.from_dbus
          (.propMap [("service_uuids", .arr ws1), ("solicit_uuids", .arr ws2), ("transport_discovery_data", .arr ws3), ("manufacturer_data", w4), ("service_data", w5), ("include_tx_power_level", w6), ("include_device_name", w7)]) =
          .err (.field "service_data" e)) ∧
    (∀ (w4 w5 w6 w7 : WireValue) (ws1 ws2 ws3 : List WireValue) (service_uuids : List String) (solicit_uuids : List String) (transport_discovery_data : List (List Nat)) (manufacturer_data : List (Int × List Nat)) (service_data : List (String × List Nat)) (e : MarshalError),
        mapConv WireValue.asStr ws1 = .ok service_uuids →
        mapConv WireValue.asStr ws2 = .ok solicit_uuids →
        mapConv WireValue.asBytes ws3 = .ok transport_discovery_data →
        WireValue.asDictI w4 = .ok manufacturer_data →
        WireValue.asDictS w5 = .ok service_data →
        WireValue.asBool w6 = .err e →
        AdvertiseData.from_dbus
          (.propMap [("service_uuids", .arr ws1), ("solicit_uuids", .arr ws2), ("transport_discovery_data", .arr ws3), ("manufacturer_data", w4), ("service_data", w5), ("include_tx_power_level", w6), ("include_device_name", w7)]) =
          .err (.field "include_tx_power_level" e)) ∧
    (∀ (w4 w5 w6 w7 : WireValue) (ws1 ws2 ws3 : List WireValue) (service_uuids : List String) (solicit_uuids : List String) (transport_discovery_data : List (List Nat)) (manufacturer_data : List (Int × List Nat)) (service_data : List (String × List Nat)) (include_tx_power_level : Bool) (e : MarshalError),
        mapConv WireValue.asStr ws1 = .ok service_uuids →
        mapConv WireValue.asStr ws2 = .ok solicit_uuids →
        mapConv WireValue.asBytes ws3 = .ok transport_discovery_data →
        WireValue.asDictI w4 = .ok manufacturer_data →
        WireValue.asDictS w5 = .ok service_data →
        WireValue.asBool w6 = .ok include_tx_power_level →
        WireValue.asBool w7 = .err e →
        AdvertiseData.from_dbus
          (.propMap [("service_uuids", .arr ws1), ("solicit_uuids", .arr ws2), ("transport_discovery_data", .arr ws3), ("manufacturer_data", w4), ("service_data", w5), ("include_tx_power_level", w6), ("include_device_name", w7)]) =
          .err (.field "include_device_name" e)) := by
  refine ⟨?_, ?_, ?_, ?_, ?_, ?_, ?_⟩ <;>
    (intros; simp_all [AdvertiseData.from_dbus, getField, getListField,
      lookupKey, tagF, DbusRes.bind])

/-- In the PeriodicAdvertisingParameters binding, a failing field aborts the whole
conversion and surfaces that field's error tagged with that field's
name (earlier fields having converted). -/
theorem periodicParams_field_aborts :
    (∀ (w1 w2 : WireValue) (e : MarshalError),
        WireValue.asBool w1 = .err e →
        PeriodicAdvertisingParameters.from_dbus
          (.propMap [("include_tx_power", w1), ("interval", w2)]) =
          .err (.field "include_tx_power" e)) ∧
    (∀ (w1 w2 : WireValue) (include_tx_power : Bool) (e : MarshalError),
        WireValue.asBool w1 = .ok include_tx_power →
        WireValue.asI32 w2 = .err e →
        PeriodicAdvertisingParameters.from_dbus
          (.propMap [("include_tx_power", w1), ("interval", w2)]) =
          .err (.field "interval" e)) := by
  refine ⟨?_, ?_⟩ <;>
    (intros; simp_all [PeriodicAdvertisingParameters.from_dbus, getField, getListField,
      lookupKey, tagF, DbusRes.bind])

/-- C6: for each composite record binding (service, characteristic,
descriptor, scan settings, scan result, advertising parameters, advertise
data, periodic advertising parameters): if the conversion of any single
field fails, the whole aggregate conversion fails and surfaces exactly
that field-level error, tagged with that field's name (the fields before
it having converted, since conversion proceeds in declaration order); and
when every field converts, the aggregate conversion succeeds with each
field converted independently, in declaration order. -/
theorem c6_aggregate_bindings :
    (((∀ (wu wi ws : WireValue) (wcs wss : List WireValue) (e : MarshalError),
        WireValue.asUuid wu = .err e →
        BluetoothGattService.from_dbus
          (.propMap [("uuid", wu), ("instance_id", wi), ("service_type", ws), ("characteristics", .arr wcs), ("included_services", .arr wss)]) =
          .err (.field "uuid" e)) ∧
     (∀ (wu wi ws : WireValue) (wcs wss : List WireValue) (u : Uuid128Bit) (e : MarshalError),
        WireValue.asUuid wu = .ok u →
        WireValue.asI32 wi = .err e →
        BluetoothGattService.from_dbus
          (.propMap [("uuid", wu), ("instance_id", wi), ("service_type", ws), ("characteristics", .arr wcs), ("included_services", .arr wss)]) =
          .err (.field "instance_id" e)) ∧
     (∀ (wu wi ws : WireValue) (wcs wss : List WireValue) (u : Uuid128Bit) (i : Int) (e : MarshalError),
        WireValue.asUuid wu = .ok u →
        WireValue.asI32 wi = .ok i →
        WireValue.asI32 ws = .err e →
        BluetoothGattService.from_dbus
          (.propMap [("uuid", wu), ("instance_id", wi), ("service_type", ws), ("characteristics", .arr wcs), ("included_services", .arr wss)]) =
          .err (.field "service_type" e)) ∧
     (∀ (wu wi ws : WireValue) (wcs wss : List WireValue) (u : Uuid128Bit) (i : Int) (s : Int) (e : MarshalError),
        WireValue.asUuid wu = .ok u →
        WireValue.asI32 wi = .ok i →
        WireValue.asI32 ws = .ok s →
        mapConv BluetoothGattCharacteristic.from_dbus wcs = .err e →
        BluetoothGattService.from_dbus
          (.propMap [("uuid", wu), ("instance_id", wi), ("service_type", ws), ("characteristics", .arr wcs), ("included_services", .arr wss)]) =
          .err (.field "characteristics" e)) ∧
     (∀ (wu wi ws : WireValue) (wcs wss : List WireValue) (u : Uuid128Bit) (i : Int) (s : Int) (cs : List BluetoothGattCharacteristic) (e : MarshalError),
        WireValue.asUuid wu = .ok u →
        WireValue.asI32 wi = .ok i →
        WireValue.asI32 ws = .ok s →
        mapConv BluetoothGattCharacteristic.from_dbus wcs = .ok cs →
        BluetoothGattService.listFrom wss = .err e →
        BluetoothGattService.from_dbus
          (.propMap [("uuid", wu), ("instance_id", wi), ("service_type", ws), ("characteristics", .arr wcs), ("included_services", .arr wss)]) =
          .err (.field "included_services" e))) ∧
     (∀ (wu wi ws : WireValue) (wcs wss : List WireValue) (u : Uuid128Bit) (i : Int) (s : Int) (cs : List BluetoothGattCharacteristic) (ss : List BluetoothGattService),
        WireValue.asUuid wu = .ok u →
        WireValue.asI32 wi = .ok i →
        WireValue.asI32 ws = .ok s →
        mapConv BluetoothGattCharacteristic.from_dbus wcs = .ok cs →
        BluetoothGattService.listFrom wss = .ok ss →
        BluetoothGattService.from_dbus
          (.propMap [("uuid", wu), ("instance_id", wi), ("service_type", ws), ("characteristics", .arr wcs), ("included_services", .arr wss)]) =
          .ok (.mk u i s cs ss))) ∧
    (((∀ (wu wi wpr wpe wk wwt : WireValue) (wds : List WireValue) (e : MarshalError),
        WireValue.asUuid wu = .err e →
        BluetoothGattCharacteristic.from_dbus
          (.propMap [("uuid", wu), ("instance_id", wi), ("properties", wpr), ("permissions", wpe), ("key_size", wk), ("write_type", wwt), ("descriptors", .arr wds)]) =
          .err (.field "uuid" e)) ∧
     (∀ (wu wi wpr wpe wk wwt : WireValue) (wds : List WireValue) (u : Uuid128Bit) (e : MarshalError),
        WireValue.asUuid wu = .ok u →
        WireValue.asI32 wi = .err e →
        BluetoothGattCharacteristic.from_dbus
          (.propMap [("uuid", wu), ("instance_id", wi), ("properties", wpr), ("permissions", wpe), ("key_size", wk), ("write_type", wwt), ("descriptors", .arr wds)]) =
          .err (.field "instance_id" e)) ∧
     (∀ (wu wi wpr wpe wk wwt : WireValue) (wds : List WireValue) (u : Uuid128Bit) (i : Int) (e : MarshalError),
        WireValue.asUuid wu = .ok u →
        WireValue.asI32 wi = .ok i →
        WireValue.asI32 wpr = .err e →
        BluetoothGattCharacteristic.from_dbus
          (.propMap [("uuid", wu), ("instance_id", wi), ("properties", wpr), ("permissions", wpe), ("key_size", wk), ("write_type", wwt), ("descriptors", .arr wds)]) =
          .err (.field "properties" e)) ∧
     (∀ (wu wi wpr wpe wk wwt : WireValue) (wds : List WireValue) (u : Uuid128Bit) (i : Int) (pr : Int) (e : MarshalError),
        WireValue.asUuid wu = .ok u →
        WireValue.asI32 wi = .ok i →
        WireValue.asI32 wpr = .ok pr →
        WireValue.asI32 wpe = .err e →
        BluetoothGattCharacteristic.from_dbus
          (.propMap [("uuid", wu), ("instance_id", wi), ("properties", wpr), ("permissions", wpe), ("key_size", wk), ("write_type", wwt), ("descriptors", .arr wds)]) =
          .err (.field "permissions" e)) ∧
     (∀ (wu wi wpr wpe wk wwt : WireValue) (wds : List WireValue) (u : Uuid128Bit) (i : Int) (pr : Int) (pe : Int) (e : MarshalError),
        WireValue.asUuid wu = .ok u →
        WireValue.asI32 wi = .ok i →
        WireValue.asI32 wpr = .ok pr →
        WireValue.asI32 wpe = .ok pe →
        WireValue.asI32 wk = .err e →
        BluetoothGattCharacteristic.from_dbus
          (.propMap [("uuid", wu), ("instance_id", wi), ("properties", wpr), ("permissions", wpe), ("key_size", wk), ("write_type", wwt), ("descriptors", .arr wds)]) =
          .err (.field "key_size" e)) ∧
     (∀ (wu wi wpr wpe wk wwt : WireValue) (wds : List WireValue) (u : Uuid128Bit) (i : Int) (pr : Int) (pe : Int) (k : Int) (e : MarshalError),
        WireValue.asUuid wu = .ok u →
        WireValue.asI32 wi = .ok i →
        WireValue.asI32 wpr = .ok pr →
        WireValue.asI32 wpe = .ok pe →
        WireValue.asI32 wk = .ok k →
        WireValue.asEnum gattWriteTypeCodec wwt = .err e →
        BluetoothGattCharacteristic.from_dbus
          (.propMap [("uuid", wu), ("instance_id", wi), ("properties", wpr), ("permissions", wpe), ("key_size", wk), ("write_type", wwt), ("descriptors", .arr wds)]) =
          .err (.field "write_type" e)) ∧
     (∀ (wu wi wpr wpe wk wwt : WireValue) (wds : List WireValue) (u : Uuid128Bit) (i : Int) (pr : Int) (pe : Int) (k : Int) (wt : GattWriteType) (e : MarshalError),
        WireValue.asUuid wu = .ok u →
        WireValue.asI32 wi = .ok i →
        WireValue.asI32 wpr = .ok pr →
        WireValue.asI32 wpe = .ok pe →
        WireValue.asI32 wk = .ok k →
        WireValue.asEnum gattWriteTypeCodec wwt = .ok wt →
        mapConv BluetoothGattDescriptor.from_dbus wds = .err e →
        BluetoothGattCharacteristic.from_dbus
          (.propMap [("uuid", wu), ("instance_id", wi), ("properties", wpr), ("permissions", wpe), ("key_size", wk), ("write_type", wwt), ("descriptors", .arr wds)]) =
          .err (.field "descriptors" e))) ∧
     (∀ (wu wi wpr wpe wk wwt : WireValue) (wds : List WireValue) (u : Uuid128Bit) (i : Int) (pr : Int) (pe : Int) (k : Int) (wt : GattWriteType) (ds : List BluetoothGattDescriptor),
        WireValue.asUuid wu = .ok u →
        WireValue.asI32 wi = .ok i →
        WireValue.asI32 wpr = .ok pr →
        WireValue.asI32 wpe = .ok pe →
        WireValue.asI32 wk = .ok k →
        WireValue.asEnum gattWriteTypeCodec wwt = .ok wt →
        mapConv BluetoothGattDescriptor.from_dbus wds = .ok ds →
        BluetoothGattCharacteristic.from_dbus
          (.propMap [("uuid", wu), ("instance_id", wi), ("properties", wpr), ("permissions", wpe), ("key_size", wk), ("write_type", wwt), ("descriptors", .arr wds)]) =
          .ok ⟨u, i, pr, pe, k, wt, ds⟩)) ∧
    (((∀ (wu wi wp : WireValue) (e : MarshalError),
        WireValue.asUuid wu = .err e →
        BluetoothGattDescriptor.from_dbus
          (.propMap [("uuid", wu), ("instance_id", wi), ("permissions", wp)]) =
          .err (.field "uuid" e)) ∧
     (∀ (wu wi wp : WireValue) (u : Uuid128Bit) (e : MarshalError),
        WireValue.asUuid wu = .ok u →
        WireValue.asI32 wi = .err e →
        BluetoothGattDescriptor.from_dbus
          (.propMap [("uuid", wu), ("instance_id", wi), ("permissions", wp)]) =
          .err (.field "instance_id" e)) ∧
     (∀ (wu wi wp : WireValue) (u : Uuid128Bit) (i : Int) (e : MarshalError),
        WireValue.asUuid wu = .ok u →
        WireValue.asI32 wi = .ok i →
        WireValue.asI32 wp = .err e →
        BluetoothGattDescriptor.from_dbus
          (.propMap [("uuid", wu), ("instance_id", wi), ("permissions", wp)]) =
          .err (.field "permissions" e))) ∧
     (∀ (wu wi wp : WireValue) (u : Uuid128Bit) (i : Int) (p : Int),
        WireValue.asUuid wu = .ok u →
        WireValue.asI32 wi = .ok i →
        WireValue.asI32 wp = .ok p →
        BluetoothGattDescriptor.from_dbus
          (.propMap [("uuid", wu), ("instance_id", wi), ("permissions", wp)]) =
          .ok ⟨u, i, p⟩)) ∧
    (((∀ (wi ww wt wr : WireValue) (e : MarshalError),
        WireValue.asI32 wi = .err e →
        ScanSettings.from_dbus
          (.propMap [("interval", wi), ("window", ww), ("scan_type", wt), ("rssi_settings", wr)]) =
          .err (.field "interval" e)) ∧
     (∀ (wi ww wt wr : WireValue) (i : Int) (e : MarshalError),
        WireValue.asI32 wi = .ok i →
        WireValue.asI32 ww = .err e →
        ScanSettings.from_dbus
          (.propMap [("interval", wi), ("window", ww), ("scan_type", wt), ("rssi_settings", wr)]) =
          .err (.field "window" e)) ∧
     (∀ (wi ww wt wr : WireValue) (i : Int) (w : Int) (e : MarshalError),
        WireValue.asI32 wi = .ok i →
        WireValue.asI32 ww = .ok w →
        WireValue.asEnum scanTypeCodec wt = .err e →
        ScanSettings.from_dbus
          (.propMap [("interval", wi), ("window", ww), ("scan_type", wt), ("rssi_settings", wr)]) =
          .err (.field "scan_type" e)) ∧
     (∀ (wi ww wt wr : WireValue) (i : Int) (w : Int) (t : ScanType) (e : MarshalError),
        WireValue.asI32 wi = .ok i →
        WireValue.asI32 ww = .ok w →
        WireValue.asEnum scanTypeCodec wt = .ok t →
        RSSISettings.from_dbus wr = .err e →
        ScanSettings.from_dbus
          (.propMap [("interval", wi), ("window", ww), ("scan_type", wt), ("rssi_settings", wr)]) =
          .err (.field "rssi_settings" e))) ∧
     (∀ (wi ww wt wr : WireValue) (i : Int) (w : Int) (t : ScanType) (r : RSSISettings),
        WireValue.asI32 wi = .ok i →
        WireValue.asI32 ww = .ok w →
        WireValue.asEnum scanTypeCodec wt = .ok t →
        RSSISettings.from_dbus wr = .ok r →
        ScanSettings.from_dbus
          (.propMap [("interval", wi), ("window", ww), ("scan_type", wt), ("rssi_settings", wr)]) =
          .ok ⟨i, w, t, r⟩)) ∧
    (((∀ (w1 w2 w3 w4 w5 w6 w7 w8 w9 w0 : WireValue) (e : MarshalError),
        WireValue.asStr w1 = .err e →
        ScanResult.from_dbus
          (.propMap [("address", w1), ("addr_type", w2), ("event_type", w3), ("primary_phy", w4), ("secondary_phy", w5), ("advertising_sid", w6), ("tx_power", w7), ("rssi", w8), ("periodic_adv_int", w9), ("adv_data", w0)]) =
          .err (.field "address" e)) ∧
     (∀ (w1 w2 w3 w4 w5 w6 w7 w8 w9 w0 : WireValue) (address : String) (e : MarshalError),
        WireValue.asStr w1 = .ok address →
        WireValue.asU8 w2 = .err e →
        ScanResult.from_dbus
          (.propMap [("address", w1), ("addr_type", w2), ("event_type", w3), ("primary_phy", w4), ("secondary_phy", w5), ("advertising_sid", w6), ("tx_power", w7), ("rssi", w8), ("periodic_adv_int", w9), ("adv_data", w0)]) =
          .err (.field "addr_type" e)) ∧
     (∀ (w1 w2 w3 w4 w5 w6 w7 w8 w9 w0 : WireValue) (address : String) (addr_type : Nat) (e : MarshalError),
        WireValue.asStr w1 = .ok address →
        WireValue.asU8 w2 = .ok addr_type →
        WireValue.asU16 w3 = .err e →
        ScanResult.from_dbus
          (.propMap [("address", w1), ("addr_type", w2), ("event_type", w3), ("primary_phy", w4), ("secondary_phy", w5), ("advertising_sid", w6), ("tx_power", w7), ("rssi", w8), ("periodic_adv_int", w9), ("adv_data", w0)]) =
          .err (.field "event_type" e)) ∧
     (∀ (w1 w2 w3 w4 w5 w6 w7 w8 w9 w0 : WireValue) (address : String) (addr_type : Nat) (event_type : Nat) (e : MarshalError),
        WireValue.asStr w1 = .ok address →
        WireValue.asU8 w2 = .ok addr_type →
        WireValue.asU16 w3 = .ok event_type →
        WireValue.asU8 w4 = .err e →
        ScanResult.from_dbus
          (.propMap [("address", w1), ("addr_type", w2), ("event_type", w3), ("primary_phy", w4), ("secondary_phy", w5), ("advertising_sid", w6), ("tx_power", w7), ("rssi", w8), ("periodic_adv_int", w9), ("adv_data", w0)]) =
          .err (.field "primary_phy" e)) ∧
     (∀ (w1 w2 w3 w4 w5 w6 w7 w8 w9 w0 : WireValue) (address : String) (addr_type : Nat) (event_type : Nat) (primary_phy : Nat) (e : MarshalError),
        WireValue.asStr w1 = .ok address →
        WireValue.asU8 w2 = .ok addr_type →
        WireValue.asU16 w3 = .ok event_type →
        WireValue.asU8 w4 = .ok primary_phy →
        WireValue.asU8 w5 = .err e →
        ScanResult.from_dbus
          (.propMap [("address", w1), ("addr_type", w2), ("event_type", w3), ("primary_phy", w4), ("secondary_phy", w5), ("advertising_sid", w6), ("tx_power", w7), ("rssi", w8), ("periodic_adv_int", w9), ("adv_data", w0)]) =
          .err (.field "secondary_phy" e)) ∧
     (∀ (w1 w2 w3 w4 w5 w6 w7 w8 w9 w0 : WireValue) (address : String) (addr_type : Nat) (event_type : Nat) (primary_phy : Nat) (secondary_phy : Nat) (e : MarshalError),
        WireValue.asStr w1 = .ok address →
        WireValue.asU8 w2 = .ok addr_type →
        WireValue.asU16 w3 = .ok event_type →
        WireValue.asU8 w4 = .ok primary_phy →
        WireValue.asU8 w5 = .ok secondary_phy →
        WireValue.asU8 w6 = .err e →
        ScanResult.from_dbus
          (.propMap [("address", w1), ("addr_type", w2), ("event_type", w3), ("primary_phy", w4), ("secondary_phy", w5), ("advertising_sid", w6), ("tx_power", w7), ("rssi", w8), ("periodic_adv_int", w9), ("adv_data", w0)]) =
          .err (.field "advertising_sid" e)) ∧
     (∀ (w1 w2 w3 w4 w5 w6 w7 w8 w9 w0 : WireValue) (address : String) (addr_type : Nat) (event_type : Nat) (primary_phy : Nat) (secondary_phy : Nat) (advertising_sid : Nat) (e : MarshalError),
        WireValue.asStr w1 = .ok address →
        WireValue.asU8 w2 = .ok addr_type →
        WireValue.asU16 w3 = .ok event_type →
        WireValue.asU8 w4 = .ok primary_phy →
        WireValue.asU8 w5 = .ok secondary_phy →
        WireValue.asU8 w6 = .ok advertising_sid →
        WireValue.asI8 w7 = .err e →
        ScanResult.from_dbus
          (.propMap [("address", w1), ("addr_type", w2), ("event_type", w3), ("primary_phy", w4), ("secondary_phy", w5), ("advertising_sid", w6), ("tx_power", w7), ("rssi", w8), ("periodic_adv_int", w9), ("adv_data", w0)]) =
          .err (.field "tx_power" e)) ∧
     (∀ (w1 w2 w3 w4 w5 w6 w7 w8 w9 w0 : WireValue) (address : String) (addr_type : Nat) (event_type : Nat) (primary_phy : Nat) (secondary_phy : Nat) (advertising_sid : Nat) (tx_power : Int) (e : MarshalError),
        WireValue.asStr w1 = .ok address →
        WireValue.asU8 w2 = .ok addr_type →
        WireValue.asU16 w3 = .ok event_type →
        WireValue.asU8 w4 = .ok primary_phy →
        WireValue.asU8 w5 = .ok secondary_phy →
        WireValue.asU8 w6 = .ok advertising_sid →
        WireValue.asI8 w7 = .ok tx_power →
        WireValue.asI8 w8 = .err e →
        ScanResult.from_dbus
          (.propMap [("address", w1), ("addr_type", w2), ("event_type", w3), ("primary_phy", w4), ("secondary_phy", w5), ("advertising_sid", w6), ("tx_power", w7), ("rssi", w8), ("periodic_adv_int", w9), ("adv_data", w0)]) =
          .err (.field "rssi" e)) ∧
     (∀ (w1 w2 w3 w4 w5 w6 w7 w8 w9 w0 : WireValue) (address : String) (addr_type : Nat) (event_type : Nat) (primary_phy : Nat) (secondary_phy : Nat) (advertising_sid : Nat) (tx_power : Int) (rssi : Int) (e : MarshalError),
        WireValue.asStr w1 = .ok address →
        WireValue.asU8 w2 = .ok addr_type →
        WireValue.asU16 w3 = .ok event_type →
        WireValue.asU8 w4 = .ok primary_phy →
        WireValue.asU8 w5 = .ok secondary_phy →
        WireValue.asU8 w6 = .ok advertising_sid →
        WireValue.asI8 w7 = .ok tx_power →
        WireValue.asI8 w8 = .ok rssi →
        WireValue.asU16 w9 = .err e →
        ScanResult.from_dbus
          (.propMap [("address", w1), ("addr_type", w2), ("event_type", w3), ("primary_phy", w4), ("secondary_phy", w5), ("advertising_sid", w6), ("tx_power", w7), ("rssi", w8), ("periodic_adv_int", w9), ("adv_data", w0)]) =
          .err (.field "periodic_adv_int" e)) ∧
     (∀ (w1 w2 w3 w4 w5 w6 w7 w8 w9 w0 : WireValue) (address : String) (addr_type : Nat) (event_type : Nat) (primary_phy : Nat) (secondary_phy : Nat) (advertising_sid : Nat) (tx_power : Int) (rssi : Int) (periodic_adv_int : Nat) (e : MarshalError),
        WireValue.asStr w1 = .ok address →
        WireValue.asU8 w2 = .ok addr_type →
        WireValue.asU16 w3 = .ok event_type →
        WireValue.asU8 w4 = .ok primary_phy →
        WireValue.asU8 w5 = .ok secondary_phy →
        WireValue.asU8 w6 = .ok advertising_sid →
        WireValue.asI8 w7 = .ok tx_power →
        WireValue.asI8 w8 = .ok rssi →
        WireValue.asU16 w9 = .ok periodic_adv_int →
        WireValue.asBytes w0 = .err e →
        ScanResult.from_dbus
          (.propMap [("address", w1), ("addr_type", w2), ("event_type", w3), ("primary_phy", w4), ("secondary_phy", w5), ("advertising_sid", w6), ("tx_power", w7), ("rssi", w8), ("periodic_adv_int", w9), ("adv_data", w0)]) =
          .err (.field "adv_data" e))) ∧
     (∀ (w1 w2 w3 w4 w5 w6 w7 w8 w9 w0 : WireValue) (address : String) (addr_type : Nat) (event_type : Nat) (primary_phy : Nat) (secondary_phy : Nat) (advertising_sid : Nat) (tx_power : Int) (rssi : Int) (periodic_adv_int : Nat) (adv_data : List Nat),
        WireValue.asStr w1 = .ok address →
        WireValue.asU8 w2 = .ok addr_type →
        WireValue.asU16 w3 = .ok event_type →
        WireValue.asU8 w4 = .ok primary_phy →
        WireValue.asU8 w5 = .ok secondary_phy →
        WireValue.asU8 w6 = .ok advertising_sid →
        WireValue.asI8 w7 = .ok tx_power →
        WireValue.asI8 w8 = .ok rssi →
        WireValue.asU16 w9 = .ok periodic_adv_int →
        WireValue.asBytes w0 = .ok adv_data →
        ScanResult.from_dbus
          (.propMap [("address", w1), ("addr_type", w2), ("event_type", w3), ("primary_phy", w4), ("secondary_phy", w5), ("advertising_sid", w6), ("tx_power", w7), ("rssi", w8), ("periodic_adv_int", w9), ("adv_data", w0)]) =
          .ok ⟨address, addr_type, event_type, primary_phy, secondary_phy, advertising_sid, tx_power, rssi, periodic_adv_int, adv_data⟩)) ∧
    (((∀ (w1 w2 w3 w4 w5 w6 w7 w8 w9 w0 : WireValue) (e : MarshalError),
        WireValue.asBool w1 = .err e →
        AdvertisingSetParameters.from_dbus
          (.propMap [("connectable", w1), ("scannable", w2), ("is_legacy", w3), ("is_anonymous", w4), ("include_tx_power", w5), ("primary_phy", w6), ("secondary_phy", w7), ("interval", w8), ("tx_power_level", w9), ("own_address_type", w0)]) =
          .err (.field "connectable" e)) ∧
     (∀ (w1 w2 w3 w4 w5 w6 w7 w8 w9 w0 : WireValue) (connectable : Bool) (e : MarshalError),
        WireValue.asBool w1 = .ok connectable →
        WireValue.asBool w2 = .err e →
        AdvertisingSetParameters.from_dbus
          (.propMap [("connectable", w1), ("scannable", w2), ("is_legacy", w3), ("is_anonymous", w4), ("include_tx_power", w5), ("primary_phy", w6), ("secondary_phy", w7), ("interval", w8), ("tx_power_level", w9), ("own_address_type", w0)]) =
          .err (.field "scannable" e)) ∧
     (∀ (w1 w2 w3 w4 w5 w6 w7 w8 w9 w0 : WireValue) (connectable : Bool) (scannable : Bool) (e : MarshalError),
        WireValue.asBool w1 = .ok connectable →
        WireValue.asBool w2 = .ok scannable →
        WireValue.asBool w3 = .err e →
        AdvertisingSetParameters.from_dbus
          (.propMap [("connectable", w1), ("scannable", w2), ("is_legacy", w3), ("is_anonymous", w4), ("include_tx_power", w5), ("primary_phy", w6), ("secondary_phy", w7), ("interval", w8), ("tx_power_level", w9), ("own_address_type", w0)]) =
          .err (.field "is_legacy" e)) ∧
     (∀ (w1 w2 w3 w4 w5 w6 w7 w8 w9 w0 : WireValue) (connectable : Bool) (scannable : Bool) (is_legacy : Bool) (e : MarshalError),
        WireValue.asBool w1 = .ok connectable →
        WireValue.asBool w2 = .ok scannable →
        WireValue.asBool w3 = .ok is_legacy →
        WireValue.asBool w4 = .err e →
        AdvertisingSetParameters.from_dbus
          (.propMap [("connectable", w1), ("scannable", w2), ("is_legacy", w3), ("is_anonymous", w4), ("include_tx_power", w5), ("primary_phy", w6), ("secondary_phy", w7), ("interval", w8), ("tx_power_level", w9), ("own_address_type", w0)]) =
          .err (.field "is_anonymous" e)) ∧
     (∀ (w1 w2 w3 w4 w5 w6 w7 w8 w9 w0 : WireValue) (connectable : Bool) (scannable : Bool) (is_legacy : Bool) (is_anonymous : Bool) (e : MarshalError),
        WireValue.asBool w1 = .ok connectable →
        WireValue.asBool w2 = .ok scannable →
        WireValue.asBool w3 = .ok is_legacy →
        WireValue.asBool w4 = .ok is_anonymous →
        WireValue.asBool w5 = .err e →
        AdvertisingSetParameters.from_dbus
          (.propMap [("connectable", w1), ("scannable", w2), ("is_legacy", w3), ("is_anonymous", w4), ("include_tx_power", w5), ("primary_phy", w6), ("secondary_phy", w7), ("interval", w8), ("tx_power_level", w9), ("own_address_type", w0)]) =
          .err (.field "include_tx_power" e)) ∧
     (∀ (w1 w2 w3 w4 w5 w6 w7 w8 w9 w0 : WireValue) (connectable : Bool) (scannable : Bool) (is_legacy : Bool) (is_anonymous : Bool) (include_tx_power : Bool) (e : MarshalError),
        WireValue.asBool w1 = .ok connectable →
        WireValue.asBool w2 = .ok scannable →
        WireValue.asBool w3 = .ok is_legacy →
        WireValue.asBool w4 = .ok is_anonymous →
        WireValue.asBool w5 = .ok include_tx_power →
        WireValue.asI32 w6 = .err e →
        AdvertisingSetParameters.from_dbus
          (.propMap [("connectable", w1), ("scannable", w2), ("is_legacy", w3), ("is_anonymous", w4), ("include_tx_power", w5), ("primary_phy", w6), ("secondary_phy", w7), ("interval", w8), ("tx_power_level", w9), ("own_address_type", w0)]) =
          .err (.field "primary_phy" e)) ∧
     (∀ (w1 w2 w3 w4 w5 w6 w7 w8 w9 w0 : WireValue) (connectable : Bool) (scannable : Bool) (is_legacy : Bool) (is_anonymous : Bool) (include_tx_power : Bool) (primary_phy : Int) (e : MarshalError),
        WireValue.asBool w1 = .ok connectable →
        WireValue.asBool w2 = .ok scannable →
        WireValue.asBool w3 = .ok is_legacy →
        WireValue.asBool w4 = .ok is_anonymous →
        WireValue.asBool w5 = .ok include_tx_power →
        WireValue.asI32 w6 = .ok primary_phy →
        WireValue.asI32 w7 = .err e →
        AdvertisingSetParameters.from_dbus
          (.propMap [("connectable", w1), ("scannable", w2), ("is_legacy", w3), ("is_anonymous", w4), ("include_tx_power", w5), ("primary_phy", w6), ("secondary_phy", w7), ("interval", w8), ("tx_power_level", w9), ("own_address_type", w0)]) =
          .err (.field "secondary_phy" e)) ∧
     (∀ (w1 w2 w3 w4 w5 w6 w7 w8 w9 w0 : WireValue) (connectable : Bool) (scannable : Bool) (is_legacy : Bool) (is_anonymous : Bool) (include_tx_power : Bool) (primary_phy : Int) (secondary_phy : Int) (e : MarshalError),
        WireValue.asBool w1 = .ok connectable →
        WireValue.asBool w2 = .ok scannable →
        WireValue.asBool w3 = .ok is_legacy →
        WireValue.asBool w4 = .ok is_anonymous →
        WireValue.asBool w5 = .ok include_tx_power →
        WireValue.asI32 w6 = .ok primary_phy →
        WireValue.asI32 w7 = .ok secondary_phy →
        WireValue.asI32 w8 = .err e →
        AdvertisingSetParameters.from_dbus
          (.propMap [("connectable", w1), ("scannable", w2), ("is_legacy", w3), ("is_anonymous", w4), ("include_tx_power", w5), ("primary_phy", w6), ("secondary_phy", w7), ("interval", w8), ("tx_power_level", w9), ("own_address_type", w0)]) =
          .err (.field "interval" e)) ∧
     (∀ (w1 w2 w3 w4 w5 w6 w7 w8 w9 w0 : WireValue) (connectable : Bool) (scannable : Bool) (is_legacy : Bool) (is_anonymous : Bool) (include_tx_power : Bool) (primary_phy : Int) (secondary_phy : Int) (interval : Int) (e : MarshalError),
        WireValue.asBool w1 = .ok connectable →
        WireValue.asBool w2 = .ok scannable →
        WireValue.asBool w3 = .ok is_legacy →
        WireValue.asBool w4 = .ok is_anonymous →
        WireValue.asBool w5 = .ok include_tx_power →
        WireValue.asI32 w6 = .ok primary_phy →
        WireValue.asI32 w7 = .ok secondary_phy →
        WireValue.asI32 w8 = .ok interval →
        WireValue.asI32 w9 = .err e →
        AdvertisingSetParameters.from_dbus
          (.propMap [("connectable", w1), ("scannable", w2), ("is_legacy", w3), ("is_anonymous", w4), ("include_tx_power", w5), ("primary_phy", w6), ("secondary_phy", w7), ("interval", w8), ("tx_power_level", w9), ("own_address_type", w0)]) =
          .err (.field "tx_power_level" e)) ∧
     (∀ (w1 w2 w3 w4 w5 w6 w7 w8 w9 w0 : WireValue) (connectable : Bool) (scannable : Bool) (is_legacy : Bool) (is_anonymous : Bool) (include_tx_power : Bool) (primary_phy : Int) (secondary_phy : Int) (interval : Int) (tx_power_level : Int) (e : MarshalError),
        WireValue.asBool w1 = .ok connectable →
        WireValue.asBool w2 = .ok scannable →
        WireValue.asBool w3 = .ok is_legacy →
        WireValue.asBool w4 = .ok is_anonymous →
        WireValue.asBool w5 = .ok include_tx_power →
        WireValue.asI32 w6 = .ok primary_phy →
        WireValue.asI32 w7 = .ok secondary_phy →
        WireValue.asI32 w8 = .ok interval →
        WireValue.asI32 w9 = .ok tx_power_level →
        WireValue.asI32 w0 = .err e →
        AdvertisingSetParameters.from_dbus
          (.propMap [("connectable", w1), ("scannable", w2), ("is_legacy", w3), ("is_anonymous", w4), ("include_tx_power", w5), ("primary_phy", w6), ("secondary_phy", w7), ("interval", w8), ("tx_power_level", w9), ("own_address_type", w0)]) =
          .err (.field "own_address_type" e))) ∧
     (∀ (w1 w2 w3 w4 w5 w6 w7 w8 w9 w0 : WireValue) (connectable : Bool) (scannable : Bool) (is_legacy : Bool) (is_anonymous : Bool) (include_tx_power : Bool) (primary_phy : Int) (secondary_phy : Int) (interval : Int) (tx_power_level : Int) (own_address_type : Int),
        WireValue.asBool w1 = .ok connectable →
        WireValue.asBool w2 = .ok scannable →
        WireValue.asBool w3 = .ok is_legacy →
        WireValue.asBool w4 = .ok is_anonymous →
        WireValue.asBool w5 = .ok include_tx_power →
        WireValue.asI32 w6 = .ok primary_phy →
        WireValue.asI32 w7 = .ok secondary_phy →
        WireValue.asI32 w8 = .ok interval →
        WireValue.asI32 w9 = .ok tx_power_level →
        WireValue.asI32 w0 = .ok own_address_type →
        AdvertisingSetParameters.from_dbus
          (.propMap [("connectable", w1), ("scannable", w2), ("is_legacy", w3), ("is_anonymous", w4), ("include_tx_power", w5), ("primary_phy", w6), ("secondary_phy", w7), ("interval", w8), ("tx_power_level", w9), ("own_address_type", w0)]) =
          .ok ⟨connectable, scannable, is_legacy, is_anonymous, include_tx_power, primary_phy, secondary_phy, interval, tx_power_level, own_address_type⟩)) ∧
    (((∀ (w4 w5 w6 w7 : WireValue) (ws1 ws2 ws3 : List WireValue) (e : MarshalError),
        mapConv WireValue.asStr ws1 = .err e →
        AdvertiseData.from_dbus
          (.propMap [("service_uuids", .arr ws1), ("solicit_uuids", .arr ws2), ("transport_discovery_data", .arr ws3), ("manufacturer_data", w4), ("service_data", w5), ("include_tx_power_level", w6), ("include_device_name", w7)]) =
          .err (.field "service_uuids" e)) ∧
     (∀ (w4 w5 w6 w7 : WireValue) (ws1 ws2 ws3 : List WireValue) (service_uuids : List String) (e : MarshalError),
        mapConv WireValue.asStr ws1 = .ok service_uuids →
        mapConv WireValue.asStr ws2 = .err e →
        AdvertiseData.from_dbus
          (.propMap [("service_uuids", .arr ws1), ("solicit_uuids", .arr ws2), ("transport_discovery_data", .arr ws3), ("manufacturer_data", w4), ("service_data", w5), ("include_tx_power_level", w6), ("include_device_name", w7)]) =
          .err (.field "solicit_uuids" e)) ∧
     (∀ (w4 w5 w6 w7 : WireValue) (ws1 ws2 ws3 : List WireValue) (service_uuids : List String) (solicit_uuids : List String) (e : MarshalError),
        mapConv WireValue.asStr ws1 = .ok service_uuids →
        mapConv WireValue.asStr ws2 = .ok solicit_uuids →
        mapConv WireValue.asBytes ws3 = .err e →
        AdvertiseData.from_dbus
          (.propMap [("service_uuids", .arr ws1), ("solicit_uuids", .arr ws2), ("transport_discovery_data", .arr ws3), ("manufacturer_data", w4), ("service_data", w5), ("include_tx_power_level", w6), ("include_device_name", w7)]) =
          .err (.field "transport_discovery_data" e)) ∧
     (∀ (w4 w5 w6 w7 : WireValue) (ws1 ws2 ws3 : List WireValue) (service_uuids : List String) (solicit_uuids : List String) (transport_discovery_data : List (List Nat)) (e : MarshalError),
        mapConv WireValue.asStr ws1 = .ok service_uuids →
        mapConv WireValue.asStr ws2 = .ok solicit_uuids →
        mapConv WireValue.asBytes ws3 = .ok transport_discovery_data →
        WireValue.asDictI w4 = .err e →
        AdvertiseData.from_dbus
          (.propMap [("service_uuids", .arr ws1), ("solicit_uuids", .arr ws2), ("transport_discovery_data", .arr ws3), ("manufacturer_data", w4), ("service_data", w5), ("include_tx_power_level", w6), ("include_device_name", w7)]) =
          .err (.field "manufacturer_data" e)) ∧
     (∀ (w4 w5 w6 w7 : WireValue) (ws1 ws2 ws3 : List WireValue) (service_uuids : List String) (solicit_uuids : List String) (transport_discovery_data : List (List Nat)) (manufacturer_data : List (Int × List Nat)) (e : MarshalError),
        mapConv WireValue.asStr ws1 = .ok service_uuids →
        mapConv WireValue.asStr ws2 = .ok solicit_uuids →
        mapConv WireValue.asBytes ws3 = .ok transport_discovery_data →
        WireValue.asDictI w4 = .ok manufacturer_data →
        WireValue.asDictS w5 = .err e →
        AdvertiseData.from_dbus
          (.propMap [("service_uuids", .arr ws1), ("solicit_uuids", .arr ws2), ("transport_discovery_data", .arr ws3), ("manufacturer_data", w4), ("service_data", w5), ("include_tx_power_level", w6), ("include_device_name", w7)]) =
          .err (.field "service_data" e)) ∧
     (∀ (w4 w5 w6 w7 : WireValue) (ws1 ws2 ws3 : List WireValue) (service_uuids : List String) (solicit_uuids : List String) (transport_discovery_data : List (List Nat)) (manufacturer_data : List (Int × List Nat)) (service_data : List (String × List Nat)) (e : MarshalError),
        mapConv WireValue.asStr ws1 = .ok service_uuids →
        mapConv WireValue.asStr ws2 = .ok solicit_uuids →
        mapConv WireValue.asBytes ws3 = .ok transport_discovery_data →
        WireValue.asDictI w4 = .ok manufacturer_data →
        WireValue.asDictS w5 = .ok service_data →
        WireValue.asBool w6 = .err e →
        AdvertiseData.from_dbus
          (.propMap [("service_uuids", .arr ws1), ("solicit_uuids", .arr ws2), ("transport_discovery_data", .arr ws3), ("manufacturer_data", w4), ("service_data", w5), ("include_tx_power_level", w6), ("include_device_name", w7)]) =
          .err (.field "include_tx_power_level" e)) ∧
     (∀ (w4 w5 w6 w7 : WireValue) (ws1 ws2 ws3 : List WireValue) (service_uuids : List String) (solicit_uuids : List String) (transport_discovery_data : List (List Nat)) (manufacturer_data : List (Int × List Nat)) (service_data : List (String × List Nat)) (include_tx_power_level : Bool) (e : MarshalError),
        mapConv WireValue.asStr ws1 = .ok service_uuids →
        mapConv WireValue.asStr ws2 = .ok solicit_uuids →
        mapConv WireValue.asBytes ws3 = .ok transport_discovery_data →
        WireValue.asDictI w4 = .ok manufacturer_data →
        WireValue.asDictS w5 = .ok service_data →
        WireValue.asBool w6 = .ok include_tx_power_level →
        WireValue.asBool w7 = .err e →
        AdvertiseData.from_dbus
          (.propMap [("service_uuids", .arr ws1), ("solicit_uuids", .arr ws2), ("transport_discovery_data", .arr ws3), ("manufacturer_data", w4), ("service_data", w5), ("include_tx_power_level", w6), ("include_device_name", w7)]) =
          .err (.field "include_device_name" e))) ∧
     (∀ (w4 w5 w6 w7 : WireValue) (ws1 ws2 ws3 : List WireValue) (service_uuids : List String) (solicit_uuids : List String) (transport_discovery_data : List (List Nat)) (manufacturer_data : List (Int × List Nat)) (service_data : List (String × List Nat)) (include_tx_power_level : Bool) (include_device_name : Bool),
        mapConv WireValue.asStr ws1 = .ok service_uuids →
        mapConv WireValue.asStr ws2 = .ok solicit_uuids →
        mapConv WireValue.asBytes ws3 = .ok transport_discovery_data →
        WireValue.asDictI w4 = .ok manufacturer_data →
        WireValue.asDictS w5 = .ok service_data →
        WireValue.asBool w6 = .ok include_tx_power_level →
        WireValue.asBool w7 = .ok include_device_name →
        AdvertiseData.from_dbus
          (.propMap [("service_uuids", .arr ws1), ("solicit_uuids", .arr ws2), ("transport_discovery_data", .arr ws3), ("manufacturer_data", w4), ("service_data", w5), ("include_tx_power_level", w6), ("include_device_name", w7)]) =
          .ok ⟨service_uuids, solicit_uuids, transport_discovery_data, manufacturer_data, service_data, include_tx_power_level, include_device_name⟩)) ∧
    (((∀ (w1 w2 : WireValue) (e : MarshalError),
        WireValue.asBool w1 = .err e →
        PeriodicAdvertisingParameters.from_dbus
          (.propMap [("include_tx_power", w1), ("interval", w2)]) =
          .err (.field "include_tx_power" e)) ∧
     (∀ (w1 w2 : WireValue) (include_tx_power : Bool) (e : MarshalError),
        WireValue.asBool w1 = .ok include_tx_power →
        WireValue.asI32 w2 = .err e →
        PeriodicAdvertisingParameters.from_dbus
          (.propMap [("include_tx_power", w1), ("interval", w2)]) =
          .err (.field "interval" e))) ∧
     (∀ (w1 w2 : WireValue) (include_tx_power : Bool) (interval : Int),
        WireValue.asBool w1 = .ok include_tx_power →
        WireValue.asI32 w2 = .ok interval →
        PeriodicAdvertisingParameters.from_dbus
          (.propMap [("include_tx_power", w1), ("interval", w2)]) =
          .ok ⟨include_tx_power, interval⟩)) :=
  ⟨⟨service_field_aborts,
    fun _ _ _ _ _ _ _ _ _ _ h1 h2 h3 h4 h5 =>
      service_from_fields h1 h2 h3 h4 h5⟩,
   ⟨characteristic_field_aborts,
    fun _ _ _ _ _ _ _ _ _ _ _ _ _ _ h1 h2 h3 h4 h5 h6 h7 =>
      characteristic_from_fields h1 h2 h3 h4 h5 h6 h7⟩,
   ⟨descriptor_field_aborts,
    fun _ _ _ _ _ _ h1 h2 h3 =>
      descriptor_from_fields h1 h2 h3⟩,
   ⟨scanSettings_field_aborts,
    fun _ _ _ _ _ _ _ _ h1 h2 h3 h4 =>
      scanSettings_from_fields h1 h2 h3 h4⟩,
   ⟨scanResult_field_aborts,
    fun _ _ _ _ _ _ _ _ _ _ _ _ _ _ _ _ _ _ _ _ h1 h2 h3 h4 h5 h6 h7 h8 h9 h10 =>
      scanResult_from_fields h1 h2 h3 h4 h5 h6 h7 h8 h9 h10⟩,
   ⟨advParams_field_aborts,
    fun _ _ _ _ _ _ _ _ _ _ _ _ _ _ _ _ _ _ _ _ h1 h2 h3 h4 h5 h6 h7 h8 h9 h10 =>
      advParams_from_fields h1 h2 h3 h4 h5 h6 h7 h8 h9 h10⟩,
   ⟨advData_field_aborts,
    fun _ _ _ _ _ _ _ _ _ _ _ _ _ _ h1 h2 h3 h4 h5 h6 h7 =>
      advData_from_fields h1 h2 h3 h4 h5 h6 h7⟩,
   ⟨periodicParams_field_aborts,
    fun _ _ _ _ h1 h2 =>
      periodicParams_from_fields h1 h2⟩⟩

/-- Witness for C6: a concrete descriptor property map whose uuid field
converts but whose instance_id field holds a boolean fails as a whole with
the i32 type error tagged with the name instance_id; definitions evaluated
at concrete inputs. -/
theorem c6_aggregate_bindings_witness :
    BluetoothGattDescriptor.from_dbus
      (.propMap [("uuid", .bytes (List.replicate 16 0)),
        ("instance_id", .boolv true), ("permissions", .i32v 2)]) =
      .err (.field "instance_id" (.typeMismatch "i32")) :=
  c6_aggregate_bindings.2.2.1.1.2.1 (.bytes (List.replicate 16 0))
    (.boolv true) (.i32v 2) ⟨List.replicate 16 0, by decide⟩
    (.typeMismatch "i32") (by decide) rfl

/-- C8: the GattService wire conversion is total and terminating on every
finite service tree: to_dbus is a total function of the recursive service
type, and from_dbus recovers exactly the original tree, so both directions
terminate and to_wire never fails on any value constructible by this
process. -/
theorem c8_service_tree_total_roundtrip :
    ∀ s : BluetoothGattService,
      BluetoothGattService.from_dbus (BluetoothGattService.to_dbus s) = .ok s :=
  service_from_to

/- Injectivity facts for the callback proxy forwarding model. -/

theorem gattStatus_code_inj {a b : GattStatus} :
    gattStatusCodec.code a = gattStatusCodec.code b ↔ a = b := by
  cases a <;> cases b <;> decide

theorem lePhy_code_inj {a b : LePhy} :
    lePhyCodec.code a = lePhyCodec.code b ↔ a = b := by
  cases a <;> cases b <;> decide

theorem uuid_val_inj {a b : Uuid128Bit} : a.val = b.val ↔ a = b :=
  ⟨Subtype.ext, fun h => by rw [h]⟩

theorem service_to_dbus_inj : Function.Injective BluetoothGattService.to_dbus := by
  intro a b h
  have ha := service_from_to a
  rw [h, service_from_to b] at ha
  injection ha with h2
  exact h2.symm

theorem service_map_to_dbus_inj {l1 l2 : List BluetoothGattService} :
    l1.map BluetoothGattService.to_dbus = l2.map BluetoothGattService.to_dbus ↔
      l1 = l2 :=
  ⟨fun h => List.map_injective_iff.mpr service_to_dbus_inj h, fun h => by rw [h]⟩

theorem scanResult_to_dbus_inj {a b : ScanResult} :
    a.to_dbus = b.to_dbus ↔ a = b := by
  constructor
  · intro h
    cases a
    cases b
    simp_all [ScanResult.to_dbus]
  · intro h
    rw [h]

/-- C7: every method of the three callback proxy capability sets (15 GATT
client event methods, 2 scanner event methods, 10 advertising-set event
methods) returns no value, and each is a pure forwarding point: it emits
exactly one method call whose body is the marshalled arguments and nothing
else, so the emitted call determines the method and its arguments exactly
(the forwarding is injective and adds no logic). -/
theorem c7_callback_proxies_pure_forwarding :
    (∀ m : GattCallbackMethod, gattCbRet m = none) ∧
    (∀ m : ScannerCallbackMethod, scannerCbRet m = none) ∧
    (∀ m : AdvCallbackMethod, advCbRet m = none) ∧
    (∀ c c' : GattCallbackCall, gattCallbackSend c = gattCallbackSend c' → c = c') ∧
    (∀ c c' : ScannerCallbackCall,
      scannerCallbackSend c = scannerCallbackSend c' → c = c') ∧
    (∀ c c' : AdvCallbackCall, advCallbackSend c = advCallbackSend c' → c = c') := by
  refine ⟨by decide, by decide, by decide, ?_, ?_, ?_⟩
  · intro c c' h
    cases c <;> cases c' <;>
      simp_all [gattCallbackSend, enumWire, gattStatus_code_inj, lePhy_code_inj,
        uuid_val_inj, scanResult_to_dbus_inj, service_map_to_dbus_inj]
  · intro c c' h
    cases c <;> cases c' <;>
      simp_all [scannerCallbackSend, enumWire, gattStatus_code_inj,
        uuid_val_inj, scanResult_to_dbus_inj]
  · intro c c' h
    cases c <;> cases c' <;> simp_all [advCallbackSend]

/-- Witness for C7: the forwarding equation at a concrete service-changed
event determines the event. -/
theorem c7_callback_proxies_pure_forwarding_witness :
    (GattCallbackCall.on_service_changed "00:11:22:33:44:55") =
      .on_service_changed "00:11:22:33:44:55" :=
  c7_callback_proxies_pure_forwarding.2.2.2.1
    (.on_service_changed "00:11:22:33:44:55")
    (.on_service_changed "00:11:22:33:44:55") rfl
